import Mathlib

/-!
# Hola Snake Game: the game state machine of `src/App.jsx`

A shallow embedding of the game logic of the React component `App`: the
catalog `FRUITS`, the grid constants, the food spawner `spawnFood`, the tick
function `update`, `startGame`, the one-second timer effect and the two input
handlers `handleKeyDown` and `handleBtnPress`.

Modelling conventions.

* React state (`gameState`, `score`, `currentFruit`, `collectedFruits`,
  `galleryIndex`, `timeLeft`) and the refs that hold game data (`snakeRef`,
  `foodRef`, `velocityRef`, `nextVelocityRef`, `collectedFruitsRef`) are the
  fields of one record `State`; every handler is a function on that record.
  Audio, speech, drawing, the key highlight (`activeKeys`), the pop effect and
  the wall-clock fields (`startTimeRef`, `finalTime`) are not modelled.
* JavaScript numbers that hold integers are `Int`.
* `Math.floor(Math.random() * n)` is an integer in `0 .. n-1`.  The calls of
  `Math.random` are answered by a stream `rnd : Nat → Nat`; the `k`-th call
  scaled by `n` is `rnd k % n`.
* The `while (!valid)` loop of `spawnFood` has no bound in the source.  It is
  modelled with a fuel argument: `Fault.outOfFuel` means that the loop has not
  left after `fuel` rounds.
* Reading a property of `undefined` or `null` throws a `TypeError` in
  JavaScript; that is `Fault.typeError`.
-/

namespace HolaSnake

/-! ## Data -/

/-- An entry of the fruit catalog: `{ icon, cn, es }`. -/
structure Fruit where
  icon : String
  cn : String
  es : String
deriving DecidableEq, Repr

/-- The fruit database `FRUITS` (lines 5-18). -/
def FRUITS : List Fruit :=
  [ { icon := "🍎", cn := "苹果", es := "Manzana" },
    { icon := "🍌", cn := "香蕉", es := "Plátano" },
    { icon := "🍇", cn := "葡萄", es := "Uva" },
    { icon := "🍉", cn := "西瓜", es := "Sandía" },
    { icon := "🍓", cn := "草莓", es := "Fresa" },
    { icon := "🍒", cn := "樱桃", es := "Cereza" },
    { icon := "🍑", cn := "桃子", es := "Melocotón" },
    { icon := "🍊", cn := "橘子", es := "Naranja" },
    { icon := "🍍", cn := "菠萝", es := "Piña" },
    { icon := "🥝", cn := "猕猴桃", es := "Kiwi" },
    { icon := "🍐", cn := "梨", es := "Pera" },
    { icon := "🍋", cn := "柠檬", es := "Limón" } ]

def CANVAS_WIDTH : Nat := 320
def CANVAS_HEIGHT : Nat := 352
def GRID_SIZE : Nat := 16
def TILE_COUNT_X : Nat := CANVAS_WIDTH / GRID_SIZE
def TILE_COUNT_Y : Nat := CANVAS_HEIGHT / GRID_SIZE

/-- The values of the React state `gameState`. -/
inductive GameState where
  | START
  | RUNNING
  | GAMEOVER
  | VICTORY
  | GALLERY
deriving DecidableEq, Repr

/-- An object `{ x, y }`: a snake segment, a head position or a velocity. -/
structure Point where
  x : Int
  y : Int
deriving DecidableEq, Repr

/-- The object held by `foodRef`: `{ x, y, type }`; `type` starts as `null`. -/
structure Food where
  x : Int
  y : Int
  type : Option Fruit
deriving DecidableEq, Repr

/-- The game data of the component `App`. -/
structure State where
  gameState : GameState
  score : Int
  currentFruit : Fruit
  collectedFruits : Finset String
  galleryIndex : Int
  timeLeft : Int
  snake : List Point
  food : Food
  velocity : Point
  nextVelocity : Point
  collectedFruitsRef : Finset String
deriving DecidableEq

/-- The state of a freshly mounted component (lines 30-50). -/
def initialState : State :=
  { gameState := .START
    score := 0
    currentFruit := { icon := "?", cn := "--", es := "--" }
    collectedFruits := ∅
    galleryIndex := 0
    timeLeft := 30
    snake := []
    food := { x := 0, y := 0, type := none }
    velocity := { x := 0, y := 0 }
    nextVelocity := { x := 0, y := 0 }
    collectedFruitsRef := ∅ }

/-- The ways a handler can fail to return. -/
inductive Fault where
  | outOfFuel
  | typeError
deriving DecidableEq, Repr

/-- The value of `e.key` as far as `handleKeyDown` tells keys apart. -/
inductive Key where
  | ArrowUp
  | ArrowDown
  | ArrowLeft
  | ArrowRight
  | Enter
  | Space
  | other
deriving DecidableEq, Repr

/-- The argument `direction` of `handleBtnPress`, as passed by the buttons. -/
inductive Button where
  | UP
  | DOWN
  | LEFT
  | RIGHT
  | START
deriving DecidableEq, Repr

/-! ## Operations -/

/-- The value `Math.floor(Math.random() * n)` at the `k`-th call of `Math.random`. -/
def randomBelow (rnd : Nat → Nat) (k n : Nat) : Nat := rnd k % n

/-- The test `segment.x === x && segment.y === y` under `some`. -/
def onSnake (snake : List Point) (x y : Int) : Bool :=
  snake.any fun segment => segment.x == x && segment.y == y

/-- The function `spawnFood` (lines 184-199): the new value of `foodRef.current`.
`k` counts the calls of `Math.random` made so far. -/
def spawnFood (rnd : Nat → Nat) (snake : List Point) : Nat → Nat → Except Fault Food
  | 0, _ => .error .outOfFuel
  | fuel + 1, k =>
    let x : Int := (randomBelow rnd k TILE_COUNT_X : Nat)
    let y : Int := (randomBelow rnd (k + 1) TILE_COUNT_Y : Nat)
    if !onSnake snake x y then
      .ok { x := x, y := y, type := FRUITS[randomBelow rnd (k + 2) FRUITS.length]? }
    else
      spawnFood rnd snake fuel (k + 2)

/-- The function `gameOver` (lines 233-238). -/
def gameOver (s : State) : State :=
  { s with gameState := .GAMEOVER, timeLeft := 5 }

/-- The function `victory` (lines 240-248). -/
def victory (s : State) : State :=
  { s with gameState := .VICTORY, timeLeft := 5 }

/-- The tick function `update` (lines 250-299). -/
def update (rnd : Nat → Nat) (fuel : Nat) (s : State) : Except Fault State :=
  if s.gameState ≠ .RUNNING then .ok s
  else
    let s := { s with velocity := s.nextVelocity }
    match s.snake with
    | [] => .error .typeError
    | first :: _ =>
      let head : Point := { x := first.x + s.velocity.x, y := first.y + s.velocity.y }
      -- Wall collision
      if head.x < 0 ∨ head.x ≥ TILE_COUNT_X ∨ head.y < 0 ∨ head.y ≥ TILE_COUNT_Y then
        .ok (gameOver s)
      -- Self collision
      else if onSnake s.snake head.x head.y then
        .ok (gameOver s)
      else
        let s := { s with snake := head :: s.snake }
        -- Eat food
        if head.x = s.food.x ∧ head.y = s.food.y then
          let s := { s with score := s.score + 10 }
          match s.food.type with
          | none => .error .typeError
          | some fruit =>
            let s := { s with currentFruit := fruit }
            -- Update collection
            let fruitIcon := fruit.icon
            if fruitIcon ∉ s.collectedFruitsRef then
              let s := { s with collectedFruitsRef := insert fruitIcon s.collectedFruitsRef }
              let s := { s with collectedFruits := s.collectedFruitsRef }
              if s.collectedFruitsRef.card = FRUITS.length then
                .ok (victory s)
              else
                (spawnFood rnd s.snake fuel 0).map fun food => { s with food := food }
            else
              (spawnFood rnd s.snake fuel 0).map fun food => { s with food := food }
        else
          .ok { s with snake := s.snake.dropLast }

/-- The function `startGame` (lines 301-331). -/
def startGame (rnd : Nat → Nat) (fuel : Nat) (s : State) : Except Fault State :=
  let s := { s with snake := [{ x := 10, y := 10 }, { x := 9, y := 10 }, { x := 8, y := 10 }] }
  let s := { s with velocity := { x := 1, y := 0 } }
  let s := { s with nextVelocity := { x := 1, y := 0 } }
  let s := { s with score := 0 }
  let s := { s with gameState := .RUNNING }
  let s := { s with collectedFruitsRef := ∅ }
  let s := { s with collectedFruits := ∅ }
  let s := { s with currentFruit := { icon := "?", cn := "--", es := "--" } }
  (spawnFood rnd s.snake fuel 0).map fun food => { s with food := food }

/-- The function `resetGalleryTimer` (lines 334-336). -/
def resetGalleryTimer (s : State) : State :=
  { s with timeLeft := 30 }

/-- One firing of the one-second interval of the timer effect (lines 339-366). -/
def timerEffect (s : State) : State :=
  if s.gameState = .GALLERY then
    if s.timeLeft ≤ 1 then { s with gameState := .START, timeLeft := 30 }
    else { s with timeLeft := s.timeLeft - 1 }
  else if s.gameState = .GAMEOVER ∨ s.gameState = .VICTORY then
    if s.timeLeft ≤ 1 then { s with gameState := .GALLERY, galleryIndex := 0, timeLeft := 30 }
    else { s with timeLeft := s.timeLeft - 1 }
  else s

/-- The keyboard handler `handleKeyDown` (lines 370-420).  The JavaScript
operator `%` is truncated remainder, `Int.tmod`. -/
def handleKeyDown (rnd : Nat → Nat) (fuel : Nat) (key : Key) (s : State) : Except Fault State :=
  -- Gallery Navigation
  if s.gameState = .GALLERY then
    let s := resetGalleryTimer s
    if key = .ArrowLeft then
      .ok { s with galleryIndex := (s.galleryIndex - 1 + FRUITS.length).tmod FRUITS.length }
    else if key = .ArrowRight then
      .ok { s with galleryIndex := (s.galleryIndex + 1).tmod FRUITS.length }
    else if key = .Enter ∨ key = .Space then
      startGame rnd fuel s
    else .ok s
  -- Start game or Enter Gallery from GameOver/Victory
  else if s.gameState ≠ .RUNNING then
    if key = .Enter ∨ key = .Space then
      if s.gameState = .GAMEOVER ∨ s.gameState = .VICTORY then
        .ok (resetGalleryTimer { s with gameState := .GALLERY, galleryIndex := 0 })
      else
        startGame rnd fuel s
    else .ok s
  else
    match key with
    | .ArrowUp =>
      .ok (if s.velocity.y = 0 then { s with nextVelocity := { x := 0, y := -1 } } else s)
    | .ArrowDown =>
      .ok (if s.velocity.y = 0 then { s with nextVelocity := { x := 0, y := 1 } } else s)
    | .ArrowLeft =>
      .ok (if s.velocity.x = 0 then { s with nextVelocity := { x := -1, y := 0 } } else s)
    | .ArrowRight =>
      .ok (if s.velocity.x = 0 then { s with nextVelocity := { x := 1, y := 0 } } else s)
    | _ => .ok s

/-- The button handler `handleBtnPress` (lines 507-539). -/
def handleBtnPress (rnd : Nat → Nat) (fuel : Nat) (direction : Button) (s : State) :
    Except Fault State :=
  if s.gameState = .GALLERY then
    let s := resetGalleryTimer s
    if direction = .LEFT then
      .ok { s with galleryIndex := (s.galleryIndex - 1 + FRUITS.length).tmod FRUITS.length }
    else if direction = .RIGHT then
      .ok { s with galleryIndex := (s.galleryIndex + 1).tmod FRUITS.length }
    else if direction = .START then
      startGame rnd fuel s
    else .ok s
  else if s.gameState = .GAMEOVER ∨ s.gameState = .VICTORY then
    if direction = .START then startGame rnd fuel s else .ok s
  else if s.gameState = .START ∧ direction = .START then
    startGame rnd fuel s
  else if s.gameState ≠ .RUNNING then .ok s
  else
    match direction with
    | .UP =>
      .ok (if s.velocity.y = 0 then { s with nextVelocity := { x := 0, y := -1 } } else s)
    | .DOWN =>
      .ok (if s.velocity.y = 0 then { s with nextVelocity := { x := 0, y := 1 } } else s)
    | .LEFT =>
      .ok (if s.velocity.x = 0 then { s with nextVelocity := { x := -1, y := 0 } } else s)
    | .RIGHT =>
      .ok (if s.velocity.x = 0 then { s with nextVelocity := { x := 1, y := 0 } } else s)
    | .START => .ok s

/-- The states the program can be in: any state after a call of `startGame`,
followed by any sequence of ticks, key presses, button presses and timer
firings, each with its own answers of `Math.random`. -/
inductive Reachable : State → Prop where
  | start (rnd : Nat → Nat) (fuel : Nat) (s0 s : State) :
      startGame rnd fuel s0 = .ok s → Reachable s
  | tick (rnd : Nat → Nat) (fuel : Nat) (s s' : State) :
      Reachable s → update rnd fuel s = .ok s' → Reachable s'
  | key (rnd : Nat → Nat) (fuel : Nat) (k : Key) (s s' : State) :
      Reachable s → handleKeyDown rnd fuel k s = .ok s' → Reachable s'
  | btn (rnd : Nat → Nat) (fuel : Nat) (b : Button) (s s' : State) :
      Reachable s → handleBtnPress rnd fuel b s = .ok s' → Reachable s'
  | timer (s : State) : Reachable s → Reachable (timerEffect s)


/-- The snake that `startGame` installs. -/
def startSnake : List Point := [{ x := 10, y := 10 }, { x := 9, y := 10 }, { x := 8, y := 10 }]

/-- Answers of `Math.random` scaled to `10, 10, 3, 4, 5`, then `0` for ever. -/
def demoDraws : Nat → Nat := fun n => [10, 10, 3, 4, 5].getD n 0

/-- The food that `spawnFood` returns on `startSnake` with `demoDraws`. -/
def demoFood : Food := { x := 3, y := 4, type := some { icon := "🍒", cn := "樱桃", es := "Cereza" } }

/-- Round `i` of the loop of `spawnFood`, started after `k` calls of
`Math.random`, draws a cell that is on no segment of the snake. -/
def freeDraw (rnd : Nat → Nat) (snake : List Point) (k i : Nat) : Prop :=
  onSnake snake (randomBelow rnd (k + 2 * i) TILE_COUNT_X : Nat)
    (randomBelow rnd (k + 2 * i + 1) TILE_COUNT_Y : Nat) = false

instance (rnd : Nat → Nat) (snake : List Point) (k i : Nat) : Decidable (freeDraw rnd snake k i) := by
  unfold freeDraw; infer_instance

/-- The icons of the catalog, the identities a collection set can hold. -/
def catalogIcons : Finset String := (FRUITS.map Fruit.icon).toFinset

/-- The game data is well formed: the segments of the snake are distinct, the
collection set holds catalog icons only and is mirrored by the React state, and
the food carries a fruit of the catalog. -/
structure WellFormed (s : State) : Prop where
  nodup : s.snake.Nodup
  collected : s.collectedFruitsRef ⊆ catalogIcons
  mirror : s.collectedFruits = s.collectedFruitsRef
  foodType : ∃ fruit ∈ FRUITS, s.food.type = some fruit

/-! ## Concrete states -/

/-- The state after `startGame` when every call of `Math.random` answers `0`:
the food is the apple at `(0, 0)`. -/
def startedState : State :=
  { gameState := .RUNNING
    score := 0
    currentFruit := { icon := "?", cn := "--", es := "--" }
    collectedFruits := ∅
    galleryIndex := 0
    timeLeft := 30
    snake := startSnake
    food := { x := 0, y := 0, type := some { icon := "🍎", cn := "苹果", es := "Manzana" } }
    velocity := { x := 1, y := 0 }
    nextVelocity := { x := 1, y := 0 }
    collectedFruitsRef := ∅ }

/-- The state `startedState` one tick later. -/
def tickedState : State :=
  { startedState with snake := [{ x := 11, y := 10 }, { x := 10, y := 10 }, { x := 9, y := 10 }] }

/-- A running game whose head is in the last column and moves right. -/
def wallState : State :=
  { startedState with snake := [{ x := 19, y := 10 }, { x := 18, y := 10 }, { x := 17, y := 10 }] }

/-- A running game whose head turns left onto the cell of its own tail. -/
def coilState : State :=
  { startedState with
    snake := [{ x := 5, y := 5 }, { x := 5, y := 6 }, { x := 4, y := 6 }, { x := 4, y := 5 }]
    velocity := { x := 0, y := -1 }
    nextVelocity := { x := -1, y := 0 } }

/-- Scenario A: the snake of `startGame` with the apple right in front of the head. -/
def scenarioA : State :=
  { startedState with
    food := { x := 11, y := 10, type := some { icon := "🍎", cn := "苹果", es := "Manzana" } } }

/-- Scenario B: every icon but the lemon is collected and the lemon lies in
front of the head. -/
def scenarioB : State :=
  { startedState with
    food := { x := 11, y := 10, type := some { icon := "🍋", cn := "柠檬", es := "Limón" } }
    collectedFruits := catalogIcons.erase "🍋"
    collectedFruitsRef := catalogIcons.erase "🍋" }

/-- The state `scenarioA` one tick later, when every call of `Math.random`
answers `0`: the apple is eaten and the next apple lies at `(0, 0)`. -/
def ateState : State :=
  { scenarioA with
    snake := [{ x := 11, y := 10 }, { x := 10, y := 10 }, { x := 9, y := 10 }, { x := 8, y := 10 }]
    score := 10
    currentFruit := { icon := "🍎", cn := "苹果", es := "Manzana" }
    collectedFruits := {"🍎"}
    collectedFruitsRef := {"🍎"}
    food := { x := 0, y := 0, type := some { icon := "🍎", cn := "苹果", es := "Manzana" } } }

/-- A gallery left over from a game that was won. -/
def galleryState : State :=
  { scenarioB with
    gameState := .GALLERY
    score := 120
    galleryIndex := 7
    timeLeft := 12
    velocity := { x := 0, y := 1 }
    nextVelocity := { x := 0, y := 1 }
    collectedFruits := catalogIcons
    collectedFruitsRef := catalogIcons }

/-- The state `wallState` one tick later: the game is lost. -/
def lostState : State :=
  { wallState with gameState := .GAMEOVER, timeLeft := 5 }

/-- The gallery `galleryState` with the cursor on the sixth fruit. -/
def galleryAtFive : State :=
  { galleryState with galleryIndex := 5 }

/-- A snake that winds through every cell of the grid, column by column, down
the even columns and up the odd ones. -/
def fullBoard : List Point :=
  (List.range TILE_COUNT_X).flatMap fun (x : Nat) =>
    (List.range TILE_COUNT_Y).map fun (y : Nat) =>
      ({ x := Int.ofNat x, y := if x % 2 = 0 then Int.ofNat y else 21 - Int.ofNat y } : Point)

/-- A long game in which only apples were spawned: the snake is `fullBoard`
without its first cell `(0,0)`, 439 segments with the head at `(0,1)` moving
up, and the apple lies on `(0,0)`, the only free cell. -/
def crowdedState : State :=
  { gameState := .RUNNING
    score := 4360
    currentFruit := { icon := "🍎", cn := "苹果", es := "Manzana" }
    collectedFruits := {"🍎"}
    galleryIndex := 0
    timeLeft := 30
    snake := fullBoard.tail
    food := { x := 0, y := 0, type := some { icon := "🍎", cn := "苹果", es := "Manzana" } }
    velocity := { x := 0, y := -1 }
    nextVelocity := { x := 0, y := -1 }
    collectedFruitsRef := {"🍎"} }

/-- One of the four unit steps `(1,0)`, `(-1,0)`, `(0,1)`, `(0,-1)`. -/
def UnitStep (v : Point) : Prop :=
  v = { x := 1, y := 0 } ∨ v = { x := -1, y := 0 } ∨ v = { x := 0, y := 1 } ∨
    v = { x := 0, y := -1 }

/-- The velocities, the length of the snake, the score and the size of the
collection set fit together: both velocities are unit steps, the pending one is
the current one or orthogonal to it, the snake has at least 3 segments, the
score is 10 for each segment beyond 3, the collection set has at most one icon
for each segment beyond 3, and in mode `RUNNING` the second segment lies one
step of the current velocity behind the head. -/
structure Steady (s : State) : Prop where
  velocity : UnitStep s.velocity
  nextVelocity : UnitStep s.nextVelocity
  turn : s.nextVelocity = s.velocity ∨
    s.nextVelocity.x * s.velocity.x + s.nextVelocity.y * s.velocity.y = 0
  length : 3 ≤ s.snake.length
  score : s.score = 10 * ((s.snake.length : Int) - 3)
  collected : s.collectedFruitsRef.card + 3 ≤ s.snake.length
  neck : s.gameState = .RUNNING → ∃ first second rest, s.snake = first :: second :: rest ∧
    second.x = first.x - s.velocity.x ∧ second.y = first.y - s.velocity.y

/-- Answers of `Math.random` scaled to `11, 10`, then `0` for ever: `startGame`
puts the apple at `(11, 10)`, which gives `scenarioA`. -/
def appleDraws : Nat → Nat := fun n => [11, 10].getD n 0

/-! ## The food spawner -/

theorem onSnake_eq_false {snake : List Point} {x y : Int} :
    onSnake snake x y = false ↔ ∀ seg ∈ snake, ¬ (seg.x = x ∧ seg.y = y) := by
  simp [onSnake, List.any_eq_false]

theorem onSnake_eq_true {snake : List Point} {x y : Int} :
    onSnake snake x y = true ↔ ∃ seg ∈ snake, seg.x = x ∧ seg.y = y := by
  simp [onSnake, List.any_eq_true]

theorem onSnake_iff_mem {snake : List Point} {p : Point} :
    onSnake snake p.x p.y = true ↔ p ∈ snake := by
  rw [onSnake_eq_true]
  constructor
  · rintro ⟨seg, hseg, hx, hy⟩
    have : seg = p := by cases seg; cases p; simp_all
    exact this ▸ hseg
  · intro h
    exact ⟨p, h, rfl, rfl⟩

theorem FRUITS_length : FRUITS.length = 12 := rfl

theorem TILE_COUNT_X_eq : TILE_COUNT_X = 20 := rfl

theorem TILE_COUNT_Y_eq : TILE_COUNT_Y = 22 := rfl

theorem randomBelow_lt (rnd : Nat → Nat) (k n : Nat) (hn : 0 < n) : randomBelow rnd k n < n :=
  Nat.mod_lt _ hn

/-- What `spawnFood` returns, when it returns. -/
theorem spawnFood_ok {rnd : Nat → Nat} {snake : List Point} {fuel k : Nat} {food : Food}
    (h : spawnFood rnd snake fuel k = .ok food) :
    0 ≤ food.x ∧ food.x < 20 ∧ 0 ≤ food.y ∧ food.y < 22 ∧
      onSnake snake food.x food.y = false ∧ ∃ fruit ∈ FRUITS, food.type = some fruit := by
  induction fuel generalizing k with
  | zero => simp [spawnFood] at h
  | succ n ih =>
    rw [spawnFood] at h
    by_cases hfree : onSnake snake (randomBelow rnd k TILE_COUNT_X : Nat)
        (randomBelow rnd (k + 1) TILE_COUNT_Y : Nat) = true
    · simp only [hfree, Bool.not_true, Bool.false_eq_true, if_false] at h
      exact ih h
    · simp only [Bool.not_eq_true] at hfree
      simp only [hfree, Bool.not_false, if_true, Except.ok.injEq] at h
      subst h
      have hx := randomBelow_lt rnd k TILE_COUNT_X (by decide)
      have hy := randomBelow_lt rnd (k + 1) TILE_COUNT_Y (by decide)
      have ht := randomBelow_lt rnd (k + 2) FRUITS.length (by decide)
      rw [TILE_COUNT_X_eq] at hx
      rw [TILE_COUNT_Y_eq] at hy
      refine ⟨by simp, by simpa using hx, by simp, by simpa using hy, hfree, ?_⟩
      refine ⟨FRUITS[randomBelow rnd (k + 2) FRUITS.length], List.getElem_mem _, ?_⟩
      simp [List.getElem?_eq_getElem ht]

/-- The loop of `spawnFood` leaves as soon as a round draws a free cell. -/
theorem spawnFood_returns {rnd : Nat → Nat} {snake : List Point} {fuel k : Nat}
    (h : ∃ i, i < fuel ∧ freeDraw rnd snake k i) :
    ∃ food, spawnFood rnd snake fuel k = .ok food := by
  induction fuel generalizing k with
  | zero => obtain ⟨i, hi, _⟩ := h; omega
  | succ n ih =>
    obtain ⟨i, hi, hfree⟩ := h
    rw [spawnFood]
    by_cases hnow : onSnake snake (randomBelow rnd k TILE_COUNT_X : Nat)
        (randomBelow rnd (k + 1) TILE_COUNT_Y : Nat) = true
    · simp only [hnow, Bool.not_true, Bool.false_eq_true, if_false]
      apply ih
      cases i with
      | zero => simp [freeDraw, hnow] at hfree
      | succ j =>
        refine ⟨j, by omega, ?_⟩
        have e1 : k + 2 * (j + 1) = k + 2 + 2 * j := by ring
        have e2 : k + 2 * (j + 1) + 1 = k + 2 + 2 * j + 1 := by ring
        simpa [freeDraw, e1, e2] using hfree
    · simp only [Bool.not_eq_true] at hnow
      simp [hnow]

/-- A call of `spawnFood` that returns has drawn a free cell within its fuel. -/
theorem spawnFood_ok_free {rnd : Nat → Nat} {snake : List Point} {fuel k : Nat} {food : Food}
    (h : spawnFood rnd snake fuel k = .ok food) :
    ∃ i, i < fuel ∧ freeDraw rnd snake k i := by
  induction fuel generalizing k with
  | zero => simp [spawnFood] at h
  | succ n ih =>
    rw [spawnFood] at h
    by_cases hnow : onSnake snake (randomBelow rnd k TILE_COUNT_X : Nat)
        (randomBelow rnd (k + 1) TILE_COUNT_Y : Nat) = true
    · simp only [hnow, Bool.not_true, Bool.false_eq_true, if_false] at h
      obtain ⟨i, hi, hfree⟩ := ih h
      refine ⟨i + 1, by omega, ?_⟩
      have e1 : k + 2 * (i + 1) = k + 2 + 2 * i := by ring
      have e2 : k + 2 * (i + 1) + 1 = k + 2 + 2 * i + 1 := by ring
      simpa [freeDraw, e1, e2] using hfree
    · simp only [Bool.not_eq_true] at hnow
      exact ⟨0, by omega, by simpa [freeDraw] using hnow⟩

/-- Whenever a cell of the grid is off the snake, some answers of `Math.random`
make the first round of `spawnFood` draw it. -/
theorem freeDraw_of_free_cell {snake : List Point} {x y : Nat} (hx : x < 20) (hy : y < 22)
    (hfree : onSnake snake x y = false) (k : Nat) :
    freeDraw (fun n => if n = k then x else y) snake k 0 := by
  simp [freeDraw, randomBelow, TILE_COUNT_X_eq, TILE_COUNT_Y_eq, Nat.mod_eq_of_lt hx,
    Nat.mod_eq_of_lt hy, hfree]

/-- C2: whenever `spawnFood` returns, the new food cell has `0 ≤ x < 20` and
`0 ≤ y < 22`, differs from the position of every snake segment, and its
identity is one of the 12 entries of `FRUITS`; and `spawnFood` does return as
soon as one of its rounds draws a cell that is off the snake. -/
theorem spawnFood_spec (rnd : Nat → Nat) (snake : List Point) (fuel k : Nat) :
    (∀ food, spawnFood rnd snake fuel k = .ok food →
      (0 ≤ food.x ∧ food.x < 20) ∧ (0 ≤ food.y ∧ food.y < 22) ∧
      (∀ seg ∈ snake, ¬ (seg.x = food.x ∧ seg.y = food.y)) ∧
      (∃ fruit ∈ FRUITS, food.type = some fruit) ∧ FRUITS.length = 12) ∧
    ((∃ i, i < fuel ∧ freeDraw rnd snake k i) → ∃ food, spawnFood rnd snake fuel k = .ok food) := by
  refine ⟨fun food h => ?_, spawnFood_returns⟩
  obtain ⟨h1, h2, h3, h4, h5, h6⟩ := spawnFood_ok h
  exact ⟨⟨h1, h2⟩, ⟨h3, h4⟩, onSnake_eq_false.mp h5, h6, rfl⟩

/-- With the snake of `startGame` and draws `10, 10, 3, 4, 5`, the first round
hits the head and the second returns the food `(3, 4)` with the sixth fruit. -/
theorem spawnFood_spec_witness :
    spawnFood demoDraws startSnake 2 0 = .ok demoFood ∧
    ((0 ≤ demoFood.x ∧ demoFood.x < 20) ∧ (0 ≤ demoFood.y ∧ demoFood.y < 22) ∧
      (∀ seg ∈ startSnake, ¬ (seg.x = demoFood.x ∧ seg.y = demoFood.y)) ∧
      (∃ fruit ∈ FRUITS, demoFood.type = some fruit) ∧ FRUITS.length = 12) :=
  ⟨rfl, (spawnFood_spec demoDraws startSnake 2 0).1 demoFood rfl⟩


/-! ## The tick function, branch by branch -/

theorem update_not_running {rnd : Nat → Nat} {fuel : Nat} {s : State}
    (h : s.gameState ≠ .RUNNING) : update rnd fuel s = .ok s := by
  simp [update, h]

theorem update_empty {rnd : Nat → Nat} {fuel : Nat} {s : State}
    (hrun : s.gameState = .RUNNING) (hsnake : s.snake = []) :
    update rnd fuel s = .error .typeError := by
  simp [update, hrun, hsnake]

theorem update_wall {rnd : Nat → Nat} {fuel : Nat} {s : State} {first : Point} {rest : List Point}
    (hrun : s.gameState = .RUNNING) (hsnake : s.snake = first :: rest)
    (hwall : first.x + s.nextVelocity.x < 0 ∨ 20 ≤ first.x + s.nextVelocity.x ∨
      first.y + s.nextVelocity.y < 0 ∨ 22 ≤ first.y + s.nextVelocity.y) :
    update rnd fuel s = .ok (gameOver { s with velocity := s.nextVelocity }) := by
  simp [update, hrun, hsnake, TILE_COUNT_X_eq, TILE_COUNT_Y_eq, hwall]

theorem update_self {rnd : Nat → Nat} {fuel : Nat} {s : State} {first : Point} {rest : List Point}
    (hrun : s.gameState = .RUNNING) (hsnake : s.snake = first :: rest)
    (hself : onSnake s.snake (first.x + s.nextVelocity.x) (first.y + s.nextVelocity.y) = true) :
    update rnd fuel s = .ok (gameOver { s with velocity := s.nextVelocity }) := by
  rw [hsnake] at hself
  simp [update, hrun, hsnake, TILE_COUNT_X_eq, TILE_COUNT_Y_eq, hself]

theorem update_move {rnd : Nat → Nat} {fuel : Nat} {s : State} {first : Point} {rest : List Point}
    (hrun : s.gameState = .RUNNING) (hsnake : s.snake = first :: rest)
    (hx : 0 ≤ first.x + s.nextVelocity.x ∧ first.x + s.nextVelocity.x < 20)
    (hy : 0 ≤ first.y + s.nextVelocity.y ∧ first.y + s.nextVelocity.y < 22)
    (hself : onSnake s.snake (first.x + s.nextVelocity.x) (first.y + s.nextVelocity.y) = false)
    (hfood : ¬ (first.x + s.nextVelocity.x = s.food.x ∧ first.y + s.nextVelocity.y = s.food.y)) :
    update rnd fuel s = .ok { s with
      velocity := s.nextVelocity
      snake := ({ x := first.x + s.nextVelocity.x, y := first.y + s.nextVelocity.y } ::
        s.snake).dropLast } := by
  rw [hsnake] at hself
  have h1 : ¬ (first.x + s.nextVelocity.x < 0 ∨ 20 ≤ first.x + s.nextVelocity.x ∨
      first.y + s.nextVelocity.y < 0 ∨ 22 ≤ first.y + s.nextVelocity.y) := by omega
  simp [update, hrun, hsnake, TILE_COUNT_X_eq, TILE_COUNT_Y_eq, hself, h1, hfood]


theorem update_eat_null {rnd : Nat → Nat} {fuel : Nat} {s : State} {first : Point}
    {rest : List Point}
    (hrun : s.gameState = .RUNNING) (hsnake : s.snake = first :: rest)
    (hx : 0 ≤ first.x + s.nextVelocity.x ∧ first.x + s.nextVelocity.x < 20)
    (hy : 0 ≤ first.y + s.nextVelocity.y ∧ first.y + s.nextVelocity.y < 22)
    (hself : onSnake s.snake (first.x + s.nextVelocity.x) (first.y + s.nextVelocity.y) = false)
    (hfood : first.x + s.nextVelocity.x = s.food.x ∧ first.y + s.nextVelocity.y = s.food.y)
    (htype : s.food.type = none) :
    update rnd fuel s = .error .typeError := by
  rw [hsnake] at hself
  have h1 : ¬ (first.x + s.nextVelocity.x < 0 ∨ 20 ≤ first.x + s.nextVelocity.x ∨
      first.y + s.nextVelocity.y < 0 ∨ 22 ≤ first.y + s.nextVelocity.y) := by omega
  obtain ⟨hfx, hfy⟩ := hfood
  rw [hfx, hfy] at h1 hself
  simp [update, hrun, hsnake, TILE_COUNT_X_eq, TILE_COUNT_Y_eq, hself, h1, hfx, hfy, htype]

theorem update_eat_victory {rnd : Nat → Nat} {fuel : Nat} {s : State} {first : Point}
    {rest : List Point} {fruit : Fruit}
    (hrun : s.gameState = .RUNNING) (hsnake : s.snake = first :: rest)
    (hx : 0 ≤ first.x + s.nextVelocity.x ∧ first.x + s.nextVelocity.x < 20)
    (hy : 0 ≤ first.y + s.nextVelocity.y ∧ first.y + s.nextVelocity.y < 22)
    (hself : onSnake s.snake (first.x + s.nextVelocity.x) (first.y + s.nextVelocity.y) = false)
    (hfood : first.x + s.nextVelocity.x = s.food.x ∧ first.y + s.nextVelocity.y = s.food.y)
    (htype : s.food.type = some fruit)
    (hnew : fruit.icon ∉ s.collectedFruitsRef)
    (hfull : (insert fruit.icon s.collectedFruitsRef).card = FRUITS.length) :
    update rnd fuel s = .ok (victory { s with
      velocity := s.nextVelocity
      snake := { x := first.x + s.nextVelocity.x, y := first.y + s.nextVelocity.y } :: s.snake
      score := s.score + 10
      currentFruit := fruit
      collectedFruitsRef := insert fruit.icon s.collectedFruitsRef
      collectedFruits := insert fruit.icon s.collectedFruitsRef }) := by
  rw [hsnake] at hself
  have h1 : ¬ (first.x + s.nextVelocity.x < 0 ∨ 20 ≤ first.x + s.nextVelocity.x ∨
      first.y + s.nextVelocity.y < 0 ∨ 22 ≤ first.y + s.nextVelocity.y) := by omega
  obtain ⟨hfx, hfy⟩ := hfood
  rw [hfx, hfy] at h1 hself
  simp [update, hrun, hsnake, TILE_COUNT_X_eq, TILE_COUNT_Y_eq, hself, h1, hfx, hfy, htype, hnew,
    hfull]

theorem update_eat_spawn {rnd : Nat → Nat} {fuel : Nat} {s : State} {first : Point}
    {rest : List Point} {fruit : Fruit}
    (hrun : s.gameState = .RUNNING) (hsnake : s.snake = first :: rest)
    (hx : 0 ≤ first.x + s.nextVelocity.x ∧ first.x + s.nextVelocity.x < 20)
    (hy : 0 ≤ first.y + s.nextVelocity.y ∧ first.y + s.nextVelocity.y < 22)
    (hself : onSnake s.snake (first.x + s.nextVelocity.x) (first.y + s.nextVelocity.y) = false)
    (hfood : first.x + s.nextVelocity.x = s.food.x ∧ first.y + s.nextVelocity.y = s.food.y)
    (htype : s.food.type = some fruit)
    (hgo : ¬ (fruit.icon ∉ s.collectedFruitsRef ∧
      (insert fruit.icon s.collectedFruitsRef).card = FRUITS.length)) :
    update rnd fuel s =
      (spawnFood rnd ({ x := first.x + s.nextVelocity.x, y := first.y + s.nextVelocity.y } ::
          s.snake) fuel 0).map fun food => { s with
        velocity := s.nextVelocity
        snake := { x := first.x + s.nextVelocity.x, y := first.y + s.nextVelocity.y } :: s.snake
        score := s.score + 10
        currentFruit := fruit
        collectedFruitsRef := insert fruit.icon s.collectedFruitsRef
        collectedFruits :=
          if fruit.icon ∈ s.collectedFruitsRef then s.collectedFruits
          else insert fruit.icon s.collectedFruitsRef
        food := food } := by
  rw [hsnake] at hself
  have h1 : ¬ (first.x + s.nextVelocity.x < 0 ∨ 20 ≤ first.x + s.nextVelocity.x ∨
      first.y + s.nextVelocity.y < 0 ∨ 22 ≤ first.y + s.nextVelocity.y) := by omega
  obtain ⟨hfx, hfy⟩ := hfood
  rw [hfx, hfy] at h1 hself
  by_cases hin : fruit.icon ∈ s.collectedFruitsRef
  · simp [update, hrun, hsnake, TILE_COUNT_X_eq, TILE_COUNT_Y_eq, hself, h1, hfx, hfy, htype, hin,
      Finset.insert_eq_of_mem]
  · have hcard : ¬ (insert fruit.icon s.collectedFruitsRef).card = FRUITS.length :=
      fun h => hgo ⟨hin, h⟩
    rw [Finset.card_insert_of_not_mem hin] at hcard
    simp [update, hrun, hsnake, TILE_COUNT_X_eq, TILE_COUNT_Y_eq, hself, h1, hfx, hfy, htype, hin,
      hcard]


/-- Every way in which a tick in mode `RUNNING` can return. -/
theorem update_ok_cases {rnd : Nat → Nat} {fuel : Nat} {s s' : State}
    (hrun : s.gameState = .RUNNING) (h : update rnd fuel s = .ok s') :
    ∃ first rest, s.snake = first :: rest ∧
      (s' = gameOver { s with velocity := s.nextVelocity } ∨
       ((0 ≤ first.x + s.nextVelocity.x ∧ first.x + s.nextVelocity.x < 20) ∧
        (0 ≤ first.y + s.nextVelocity.y ∧ first.y + s.nextVelocity.y < 22) ∧
        onSnake s.snake (first.x + s.nextVelocity.x) (first.y + s.nextVelocity.y) = false ∧
        ((¬ (first.x + s.nextVelocity.x = s.food.x ∧ first.y + s.nextVelocity.y = s.food.y) ∧
          s' = { s with
            velocity := s.nextVelocity
            snake := ({ x := first.x + s.nextVelocity.x, y := first.y + s.nextVelocity.y } ::
              s.snake).dropLast }) ∨
         ((first.x + s.nextVelocity.x = s.food.x ∧ first.y + s.nextVelocity.y = s.food.y) ∧
          ∃ fruit, s.food.type = some fruit ∧
           ((fruit.icon ∉ s.collectedFruitsRef ∧
             (insert fruit.icon s.collectedFruitsRef).card = FRUITS.length ∧
             s' = victory { s with
               velocity := s.nextVelocity
               snake := { x := first.x + s.nextVelocity.x, y := first.y + s.nextVelocity.y } ::
                 s.snake
               score := s.score + 10
               currentFruit := fruit
               collectedFruitsRef := insert fruit.icon s.collectedFruitsRef
               collectedFruits := insert fruit.icon s.collectedFruitsRef }) ∨
            (¬ (fruit.icon ∉ s.collectedFruitsRef ∧
                (insert fruit.icon s.collectedFruitsRef).card = FRUITS.length) ∧
             ∃ food,
               spawnFood rnd
                 ({ x := first.x + s.nextVelocity.x, y := first.y + s.nextVelocity.y } :: s.snake)
                 fuel 0 = .ok food ∧
               s' = { s with
                 velocity := s.nextVelocity
                 snake := { x := first.x + s.nextVelocity.x, y := first.y + s.nextVelocity.y } ::
                   s.snake
                 score := s.score + 10
                 currentFruit := fruit
                 collectedFruitsRef := insert fruit.icon s.collectedFruitsRef
                 collectedFruits :=
                   if fruit.icon ∈ s.collectedFruitsRef then s.collectedFruits
                   else insert fruit.icon s.collectedFruitsRef
                 food := food })))))) := by
  cases hsnake : s.snake with
  | nil => rw [update_empty hrun hsnake] at h; cases h
  | cons first rest =>
    refine ⟨first, rest, rfl, ?_⟩
    rw [← hsnake]
    by_cases hwall : first.x + s.nextVelocity.x < 0 ∨ 20 ≤ first.x + s.nextVelocity.x ∨
        first.y + s.nextVelocity.y < 0 ∨ 22 ≤ first.y + s.nextVelocity.y
    · rw [update_wall hrun hsnake hwall] at h
      exact Or.inl (Except.ok.inj h).symm
    have hx : 0 ≤ first.x + s.nextVelocity.x ∧ first.x + s.nextVelocity.x < 20 := by omega
    have hy : 0 ≤ first.y + s.nextVelocity.y ∧ first.y + s.nextVelocity.y < 22 := by omega
    cases hself : onSnake s.snake (first.x + s.nextVelocity.x) (first.y + s.nextVelocity.y) with
    | true =>
      rw [update_self hrun hsnake hself] at h
      exact Or.inl (Except.ok.inj h).symm
    | false =>
      refine Or.inr ⟨hx, hy, rfl, ?_⟩
      by_cases hfood : first.x + s.nextVelocity.x = s.food.x ∧
          first.y + s.nextVelocity.y = s.food.y
      · refine Or.inr ⟨hfood, ?_⟩
        cases htype : s.food.type with
        | none => rw [update_eat_null hrun hsnake hx hy hself hfood htype] at h; cases h
        | some fruit =>
          refine ⟨fruit, rfl, ?_⟩
          by_cases hwin : fruit.icon ∉ s.collectedFruitsRef ∧
              (insert fruit.icon s.collectedFruitsRef).card = FRUITS.length
          · rw [update_eat_victory hrun hsnake hx hy hself hfood htype hwin.1 hwin.2] at h
            exact Or.inl ⟨hwin.1, hwin.2, (Except.ok.inj h).symm⟩
          · rw [update_eat_spawn hrun hsnake hx hy hself hfood htype hwin] at h
            refine Or.inr ⟨hwin, ?_⟩
            cases hsp : spawnFood rnd
                ({ x := first.x + s.nextVelocity.x, y := first.y + s.nextVelocity.y } :: s.snake)
                fuel 0 with
            | error e => rw [hsp] at h; cases h
            | ok food =>
              rw [hsp] at h
              exact ⟨food, rfl, (Except.ok.inj h).symm⟩
      · rw [update_move hrun hsnake hx hy hself hfood] at h
        exact Or.inl ⟨hfood, (Except.ok.inj h).symm⟩


/-! ## Starting a game -/

theorem startGame_eq (rnd : Nat → Nat) (fuel : Nat) (s : State) :
    startGame rnd fuel s =
      (spawnFood rnd startSnake fuel 0).map fun food => { s with
        snake := startSnake
        velocity := { x := 1, y := 0 }
        nextVelocity := { x := 1, y := 0 }
        score := 0
        gameState := .RUNNING
        collectedFruitsRef := ∅
        collectedFruits := ∅
        currentFruit := { icon := "?", cn := "--", es := "--" }
        food := food } := rfl

theorem startGame_ok {rnd : Nat → Nat} {fuel : Nat} {s s' : State}
    (h : startGame rnd fuel s = .ok s') :
    ∃ food, spawnFood rnd startSnake fuel 0 = .ok food ∧
      s' = { s with
        snake := startSnake
        velocity := { x := 1, y := 0 }
        nextVelocity := { x := 1, y := 0 }
        score := 0
        gameState := .RUNNING
        collectedFruitsRef := ∅
        collectedFruits := ∅
        currentFruit := { icon := "?", cn := "--", es := "--" }
        food := food } := by
  rw [startGame_eq] at h
  cases hsp : spawnFood rnd startSnake fuel 0 with
  | error e => rw [hsp] at h; cases h
  | ok food =>
    rw [hsp] at h
    exact ⟨food, rfl, (Except.ok.inj h).symm⟩

/-! ## The input handlers and the timer leave the game data alone -/

/-- A key press is a call of `startGame`, or it changes at most the mode, the
countdown, the gallery cursor and the pending velocity. -/
theorem handleKeyDown_frame {rnd : Nat → Nat} {fuel : Nat} {key : Key} {s s' : State}
    (h : handleKeyDown rnd fuel key s = .ok s') :
    ((key = .Enter ∨ key = .Space) ∧ s.gameState ≠ .RUNNING ∧
      ∃ s0, startGame rnd fuel s0 = .ok s') ∨
    (s'.snake = s.snake ∧ s'.food = s.food ∧ s'.score = s.score ∧
      s'.velocity = s.velocity ∧ s'.collectedFruitsRef = s.collectedFruitsRef ∧
      s'.collectedFruits = s.collectedFruits ∧ s'.currentFruit = s.currentFruit) := by
  unfold handleKeyDown at h
  split_ifs at h with h1 h2 h3 h4 h5 h6 h7
  all_goals first
    | (cases h; right; simp [resetGalleryTimer])
    | (left; exact ⟨by assumption, by intro hr; simp_all, _, h⟩)
    | (cases key <;> simp at h <;> subst h <;> right <;> simp)

theorem handleBtnPress_frame {rnd : Nat → Nat} {fuel : Nat} {b : Button} {s s' : State}
    (h : handleBtnPress rnd fuel b s = .ok s') :
    (b = .START ∧ s.gameState ≠ .RUNNING ∧ ∃ s0, startGame rnd fuel s0 = .ok s') ∨
    (s'.snake = s.snake ∧ s'.food = s.food ∧ s'.score = s.score ∧
      s'.velocity = s.velocity ∧ s'.collectedFruitsRef = s.collectedFruitsRef ∧
      s'.collectedFruits = s.collectedFruits ∧ s'.currentFruit = s.currentFruit) := by
  unfold handleBtnPress at h
  split_ifs at h with h1 h2 h3 h4 h5 h6 h7 h8
  all_goals first
    | (cases h; right; simp [resetGalleryTimer])
    | (left; exact ⟨by simp_all, by intro hr; simp_all, _, h⟩)
    | (cases b <;> simp at h <;> subst h <;> right <;> simp)

theorem timerEffect_frame (s : State) :
    (timerEffect s).snake = s.snake ∧ (timerEffect s).food = s.food ∧
      (timerEffect s).score = s.score ∧ (timerEffect s).velocity = s.velocity ∧
      (timerEffect s).nextVelocity = s.nextVelocity ∧
      (timerEffect s).collectedFruitsRef = s.collectedFruitsRef ∧
      (timerEffect s).collectedFruits = s.collectedFruits ∧
      (timerEffect s).currentFruit = s.currentFruit := by
  unfold timerEffect
  split_ifs <;> simp


/-! ## What holds in every reachable state -/

theorem icon_mem_catalogIcons {fruit : Fruit} (h : fruit ∈ FRUITS) :
    fruit.icon ∈ catalogIcons := by
  unfold catalogIcons
  rw [List.mem_toFinset]
  exact List.mem_map_of_mem _ h

theorem startSnake_nodup : startSnake.Nodup := by decide

theorem startGame_wellFormed {rnd : Nat → Nat} {fuel : Nat} {s s' : State}
    (h : startGame rnd fuel s = .ok s') : WellFormed s' := by
  obtain ⟨food, hsp, rfl⟩ := startGame_ok h
  exact ⟨startSnake_nodup, Finset.empty_subset _, rfl, (spawnFood_ok hsp).2.2.2.2.2⟩

theorem nodup_cons_of_not_onSnake {snake : List Point} {x y : Int}
    (hnodup : snake.Nodup) (hself : onSnake snake x y = false) :
    (({ x := x, y := y } : Point) :: snake).Nodup := by
  refine List.nodup_cons.mpr ⟨fun hmem => ?_, hnodup⟩
  have := (onSnake_iff_mem (p := { x := x, y := y })).mpr hmem
  simp [hself] at this

theorem update_wellFormed {rnd : Nat → Nat} {fuel : Nat} {s s' : State}
    (hwf : WellFormed s) (h : update rnd fuel s = .ok s') : WellFormed s' := by
  by_cases hrun : s.gameState = .RUNNING
  · obtain ⟨first, rest, _, hcases⟩ := update_ok_cases hrun h
    rcases hcases with rfl | ⟨_, _, hself, hmove | ⟨_, fruit, htype, hwin | hspawn⟩⟩
    · exact ⟨hwf.nodup, hwf.collected, hwf.mirror, hwf.foodType⟩
    · obtain ⟨_, rfl⟩ := hmove
      exact ⟨(nodup_cons_of_not_onSnake hwf.nodup hself).sublist (List.dropLast_sublist _),
        hwf.collected, hwf.mirror, hwf.foodType⟩
    · obtain ⟨_, _, rfl⟩ := hwin
      obtain ⟨f, hf, hft⟩ := hwf.foodType
      have hfruit : fruit ∈ FRUITS := by
        rw [htype] at hft; cases hft; exact hf
      exact ⟨nodup_cons_of_not_onSnake hwf.nodup hself,
        Finset.insert_subset (icon_mem_catalogIcons hfruit) hwf.collected, rfl, hwf.foodType⟩
    · obtain ⟨_, food, hsp, rfl⟩ := hspawn
      obtain ⟨f, hf, hft⟩ := hwf.foodType
      have hfruit : fruit ∈ FRUITS := by
        rw [htype] at hft; cases hft; exact hf
      refine ⟨nodup_cons_of_not_onSnake hwf.nodup hself,
        Finset.insert_subset (icon_mem_catalogIcons hfruit) hwf.collected, ?_,
        (spawnFood_ok hsp).2.2.2.2.2⟩
      by_cases hin : fruit.icon ∈ s.collectedFruitsRef
      · simp [hin, hwf.mirror]
      · simp [hin]
  · rw [update_not_running hrun] at h
    cases h
    exact hwf

theorem wellFormed_of_frame {s s' : State} (hwf : WellFormed s)
    (hsnake : s'.snake = s.snake) (hfood : s'.food = s.food)
    (href : s'.collectedFruitsRef = s.collectedFruitsRef)
    (hcol : s'.collectedFruits = s.collectedFruits) : WellFormed s' :=
  ⟨hsnake ▸ hwf.nodup, href ▸ hwf.collected, by rw [hcol, href]; exact hwf.mirror,
    hfood ▸ hwf.foodType⟩

theorem Reachable.wellFormed {s : State} (h : Reachable s) : WellFormed s := by
  induction h with
  | start rnd fuel s0 s hs => exact startGame_wellFormed hs
  | tick rnd fuel s s' _ hs ih => exact update_wellFormed ih hs
  | key rnd fuel k s s' _ hs ih =>
    rcases handleKeyDown_frame hs with ⟨_, _, s0, h0⟩ | ⟨h1, h2, _, _, h5, h6, _⟩
    · exact startGame_wellFormed h0
    · exact wellFormed_of_frame ih h1 h2 h5 h6
  | btn rnd fuel b s s' _ hs ih =>
    rcases handleBtnPress_frame hs with ⟨_, _, s0, h0⟩ | ⟨h1, h2, _, _, h5, h6, _⟩
    · exact startGame_wellFormed h0
    · exact wellFormed_of_frame ih h1 h2 h5 h6
  | timer s _ ih =>
    obtain ⟨h1, h2, _, _, _, h5, h6, _⟩ := timerEffect_frame s
    exact wellFormed_of_frame ih h1 h2 h5 h6


/-! ## The claims -/

/-- C1: in every state reachable from `startGame` by ticks and commands, with
any outcomes of the food spawner, a tick that ends in mode `RUNNING` leaves a
snake no two segments of which occupy the same cell. -/
theorem update_segments_distinct (rnd : Nat → Nat) (fuel : Nat) (s s' : State)
    (hreach : Reachable s) (htick : update rnd fuel s = .ok s')
    (_hplay : s'.gameState = .RUNNING) : s'.snake.Nodup :=
  (update_wellFormed hreach.wellFormed htick).nodup

/-- After `startGame` and one tick the three segments are distinct. -/
theorem update_segments_distinct_witness : tickedState.snake.Nodup :=
  update_segments_distinct (fun _ => 0) 1 startedState tickedState
    (Reachable.start (fun _ => 0) 1 initialState startedState rfl) rfl rfl

/-- C3: in mode `RUNNING`, when head plus pending velocity has `x = -1`,
`x = 20`, `y = -1` or `y = 22`, one tick sets the mode to `GAMEOVER` and the
countdown to 5 and keeps the snake, its length, the food, the score and the
collection set. -/
theorem update_wall_boundary (rnd : Nat → Nat) (fuel : Nat) (s : State) (first : Point)
    (rest : List Point) (hrun : s.gameState = .RUNNING) (hsnake : s.snake = first :: rest)
    (hwall : first.x + s.nextVelocity.x = -1 ∨ first.x + s.nextVelocity.x = 20 ∨
      first.y + s.nextVelocity.y = -1 ∨ first.y + s.nextVelocity.y = 22) :
    ∃ s', update rnd fuel s = .ok s' ∧ s'.gameState = .GAMEOVER ∧ s'.timeLeft = 5 ∧
      s'.snake = s.snake ∧ s'.snake.length = s.snake.length ∧ s'.food = s.food ∧
      s'.score = s.score ∧ s'.collectedFruitsRef = s.collectedFruitsRef ∧
      s'.collectedFruits = s.collectedFruits := by
  refine ⟨_, update_wall hrun hsnake (by omega), ?_⟩
  simp [gameOver]

/-- A head at `(19, 10)` moving right reaches `x = 20`: the game is over and the
snake keeps its three segments. -/
theorem update_wall_boundary_witness :
    ∃ s', update (fun _ => 0) 1 wallState = .ok s' ∧ s'.gameState = .GAMEOVER ∧
      s'.timeLeft = 5 ∧ s'.snake = wallState.snake ∧
      s'.snake.length = wallState.snake.length ∧ s'.food = wallState.food ∧
      s'.score = wallState.score ∧ s'.collectedFruitsRef = wallState.collectedFruitsRef ∧
      s'.collectedFruits = wallState.collectedFruits :=
  update_wall_boundary (fun _ => 0) 1 wallState { x := 19, y := 10 }
    [{ x := 18, y := 10 }, { x := 17, y := 10 }] rfl rfl (by decide)

/-- C4: in mode `RUNNING`, when the in-bounds cell head plus pending velocity is
the cell of a segment `seg` of the snake as it stands before the move (the last
segment included), one tick sets the mode to `GAMEOVER` and the countdown to 5
and leaves the snake unchanged. -/
theorem update_self_collision (rnd : Nat → Nat) (fuel : Nat) (s : State) (first : Point)
    (rest : List Point) (seg : Point) (hrun : s.gameState = .RUNNING)
    (hsnake : s.snake = first :: rest)
    (_hx : 0 ≤ first.x + s.nextVelocity.x ∧ first.x + s.nextVelocity.x < 20)
    (_hy : 0 ≤ first.y + s.nextVelocity.y ∧ first.y + s.nextVelocity.y < 22)
    (hseg : seg ∈ s.snake)
    (hhit : seg.x = first.x + s.nextVelocity.x ∧ seg.y = first.y + s.nextVelocity.y) :
    ∃ s', update rnd fuel s = .ok s' ∧ s'.gameState = .GAMEOVER ∧ s'.timeLeft = 5 ∧
      s'.snake = s.snake := by
  refine ⟨_, update_self hrun hsnake (onSnake_eq_true.mpr ⟨seg, hseg, hhit⟩), ?_⟩
  simp [gameOver]

/-- A head at `(5, 5)` turning left onto `(4, 5)`, the cell of the last segment,
ends the game; the four segments stay. -/
theorem update_self_collision_witness :
    coilState.snake.getLast? = some { x := 4, y := 5 } ∧
    ∃ s', update (fun _ => 0) 1 coilState = .ok s' ∧ s'.gameState = .GAMEOVER ∧
      s'.timeLeft = 5 ∧ s'.snake = coilState.snake :=
  ⟨rfl, update_self_collision (fun _ => 0) 1 coilState { x := 5, y := 5 }
    [{ x := 5, y := 6 }, { x := 4, y := 6 }, { x := 4, y := 5 }] { x := 4, y := 5 } rfl rfl
    (by decide) (by decide) (by decide) (by decide)⟩

/-- C7: in mode `RUNNING`, when head plus pending velocity is in bounds, on no
segment and not the food cell, one tick puts the new head in front of the old
snake without its last segment, so the length stays, and keeps the mode, the
food, the score and the collection set. -/
theorem update_plain_move (rnd : Nat → Nat) (fuel : Nat) (s : State) (first : Point)
    (rest : List Point) (hrun : s.gameState = .RUNNING) (hsnake : s.snake = first :: rest)
    (hx : 0 ≤ first.x + s.nextVelocity.x ∧ first.x + s.nextVelocity.x < 20)
    (hy : 0 ≤ first.y + s.nextVelocity.y ∧ first.y + s.nextVelocity.y < 22)
    (hself : ∀ seg ∈ s.snake,
      ¬ (seg.x = first.x + s.nextVelocity.x ∧ seg.y = first.y + s.nextVelocity.y))
    (hfood : ¬ (first.x + s.nextVelocity.x = s.food.x ∧ first.y + s.nextVelocity.y = s.food.y)) :
    ∃ s', update rnd fuel s = .ok s' ∧
      s'.snake = { x := first.x + s.nextVelocity.x, y := first.y + s.nextVelocity.y } ::
        s.snake.dropLast ∧
      s'.snake.length = s.snake.length ∧ s'.gameState = .RUNNING ∧ s'.food = s.food ∧
      s'.score = s.score ∧ s'.collectedFruitsRef = s.collectedFruitsRef ∧
      s'.collectedFruits = s.collectedFruits := by
  refine ⟨_, update_move hrun hsnake hx hy (onSnake_eq_false.mpr hself) hfood, ?_⟩
  simp [hsnake, hrun]

/-- The snake of `startGame` moving right with the food at `(0, 0)` becomes
`(11,10), (10,10), (9,10)`. -/
theorem update_plain_move_witness :
    ∃ s', update (fun _ => 0) 1 startedState = .ok s' ∧
      s'.snake = { x := 10 + 1, y := 10 + 0 } :: startedState.snake.dropLast ∧
      s'.snake.length = startedState.snake.length ∧ s'.gameState = .RUNNING ∧
      s'.food = startedState.food ∧ s'.score = startedState.score ∧
      s'.collectedFruitsRef = startedState.collectedFruitsRef ∧
      s'.collectedFruits = startedState.collectedFruits :=
  update_plain_move (fun _ => 0) 1 startedState { x := 10, y := 10 }
    [{ x := 9, y := 10 }, { x := 8, y := 10 }] rfl rfl (by decide) (by decide) (by decide)
    (by decide)


theorem catalogIcons_card : catalogIcons.card = FRUITS.length := by decide

/-- A collection of catalog icons whose size is that of the catalog is the catalog. -/
theorem eq_catalogIcons_of_card {c : Finset String} (hsub : c ⊆ catalogIcons)
    (hcard : c.card = FRUITS.length) : c = catalogIcons :=
  Finset.eq_of_subset_of_card_le hsub (by rw [catalogIcons_card, hcard])

/-- C5, as the code has it: in mode `RUNNING`, when head plus pending velocity is
in bounds, on no segment and on the food, the collection set with the icon of
the food added is not the whole catalog, and some round of the spawner draws a
cell off the grown snake, one tick puts the new head in front of the whole old
snake (length plus one), adds 10 to the score, adds the icon to the collection
set, stays in mode `RUNNING` and spawns a food that lies on no segment of the
new snake. -/
theorem update_eat_grow (rnd : Nat → Nat) (fuel : Nat) (s : State) (first : Point)
    (rest : List Point) (fruit : Fruit)
    (hrun : s.gameState = .RUNNING) (hsnake : s.snake = first :: rest)
    (hx : 0 ≤ first.x + s.nextVelocity.x ∧ first.x + s.nextVelocity.x < 20)
    (hy : 0 ≤ first.y + s.nextVelocity.y ∧ first.y + s.nextVelocity.y < 22)
    (hself : ∀ seg ∈ s.snake,
      ¬ (seg.x = first.x + s.nextVelocity.x ∧ seg.y = first.y + s.nextVelocity.y))
    (hfood : first.x + s.nextVelocity.x = s.food.x ∧ first.y + s.nextVelocity.y = s.food.y)
    (htype : s.food.type = some fruit) (hfruit : fruit ∈ FRUITS)
    (hcoll : s.collectedFruitsRef ⊆ catalogIcons)
    (hnotfull : insert fruit.icon s.collectedFruitsRef ≠ catalogIcons)
    (hdraw : ∃ i, i < fuel ∧ freeDraw rnd
      ({ x := first.x + s.nextVelocity.x, y := first.y + s.nextVelocity.y } :: s.snake) 0 i) :
    ∃ s', update rnd fuel s = .ok s' ∧
      s'.snake = { x := first.x + s.nextVelocity.x, y := first.y + s.nextVelocity.y } ::
        s.snake ∧
      s'.snake.length = s.snake.length + 1 ∧
      s'.score = s.score + 10 ∧
      s'.collectedFruitsRef = insert fruit.icon s.collectedFruitsRef ∧
      (s.collectedFruits = s.collectedFruitsRef → s'.collectedFruits = s'.collectedFruitsRef) ∧
      s'.gameState = .RUNNING ∧
      spawnFood rnd s'.snake fuel 0 = .ok s'.food ∧
      (∀ seg ∈ s'.snake, ¬ (seg.x = s'.food.x ∧ seg.y = s'.food.y)) := by
  have hgo : ¬ (fruit.icon ∉ s.collectedFruitsRef ∧
      (insert fruit.icon s.collectedFruitsRef).card = FRUITS.length) := fun hwin =>
    hnotfull (eq_catalogIcons_of_card
      (Finset.insert_subset (icon_mem_catalogIcons hfruit) hcoll) hwin.2)
  obtain ⟨food, hsp⟩ := spawnFood_returns hdraw
  have hupd := @update_eat_spawn rnd fuel s first rest fruit hrun hsnake hx hy
    (onSnake_eq_false.mpr hself) hfood htype hgo
  rw [hsp] at hupd
  refine ⟨_, hupd, rfl, by simp, rfl, rfl, ?_, hrun, hsp,
    onSnake_eq_false.mp (spawnFood_ok hsp).2.2.2.2.1⟩
  intro hmirror
  by_cases hin : fruit.icon ∈ s.collectedFruitsRef
  · simp [hin, hmirror]
  · simp [hin]

/-- Scenario A: snake `(10,10), (9,10), (8,10)`, velocity `(1,0)`, food at
`(11,10)`: after one tick the snake is `(11,10), (10,10), (9,10), (8,10)`. -/
theorem update_eat_grow_witness :
    ∃ s', update (fun _ => 0) 1 scenarioA = .ok s' ∧
      s'.snake = [{ x := 11, y := 10 }, { x := 10, y := 10 }, { x := 9, y := 10 },
        { x := 8, y := 10 }] ∧
      s'.snake.length = scenarioA.snake.length + 1 ∧
      s'.score = scenarioA.score + 10 ∧
      s'.collectedFruitsRef = insert "🍎" scenarioA.collectedFruitsRef ∧
      (scenarioA.collectedFruits = scenarioA.collectedFruitsRef →
        s'.collectedFruits = s'.collectedFruitsRef) ∧
      s'.gameState = .RUNNING ∧
      spawnFood (fun _ => 0) s'.snake 1 0 = .ok s'.food ∧
      (∀ seg ∈ s'.snake, ¬ (seg.x = s'.food.x ∧ seg.y = s'.food.y)) :=
  update_eat_grow (fun _ => 0) 1 scenarioA { x := 10, y := 10 }
    [{ x := 9, y := 10 }, { x := 8, y := 10 }] { icon := "🍎", cn := "苹果", es := "Manzana" }
    rfl rfl (by decide) (by decide) (by decide) (by decide) rfl (by decide) (by decide)
    (by decide) ⟨0, by decide, by decide⟩

/-- C6: in mode `RUNNING` with a collection set of catalog icons and a food of
the catalog: when the collection set holds 11 icons and the head moves onto a
food whose icon is the missing one, the tick sets the mode to `VICTORY` and the
countdown to 5, the collection set is the whole catalog and the snake is the new
head in front of the whole old snake; and whenever a tick yields `VICTORY`, the
collection set after it is the whole catalog. -/
theorem update_victory (rnd : Nat → Nat) (fuel : Nat) (s : State)
    (hrun : s.gameState = .RUNNING) (hcoll : s.collectedFruitsRef ⊆ catalogIcons)
    (hcat : ∀ fruit, s.food.type = some fruit → fruit ∈ FRUITS) :
    (∀ first rest fruit, s.snake = first :: rest →
      (0 ≤ first.x + s.nextVelocity.x ∧ first.x + s.nextVelocity.x < 20) →
      (0 ≤ first.y + s.nextVelocity.y ∧ first.y + s.nextVelocity.y < 22) →
      (∀ seg ∈ s.snake,
        ¬ (seg.x = first.x + s.nextVelocity.x ∧ seg.y = first.y + s.nextVelocity.y)) →
      (first.x + s.nextVelocity.x = s.food.x ∧ first.y + s.nextVelocity.y = s.food.y) →
      s.food.type = some fruit → s.collectedFruitsRef.card = 11 →
      fruit.icon ∉ s.collectedFruitsRef →
      ∃ s', update rnd fuel s = .ok s' ∧ s'.gameState = .VICTORY ∧ s'.timeLeft = 5 ∧
        s'.collectedFruitsRef = catalogIcons ∧ s'.collectedFruits = catalogIcons ∧
        s'.snake = { x := first.x + s.nextVelocity.x, y := first.y + s.nextVelocity.y } ::
          s.snake) ∧
    (∀ s', update rnd fuel s = .ok s' → s'.gameState = .VICTORY →
      s'.collectedFruitsRef = catalogIcons) := by
  constructor
  · intro first rest fruit hsnake hx hy hself hfood htype hcard hnew
    have hfull : (insert fruit.icon s.collectedFruitsRef).card = FRUITS.length := by
      rw [Finset.card_insert_of_not_mem hnew, hcard]; rfl
    have hall := eq_catalogIcons_of_card
      (Finset.insert_subset (icon_mem_catalogIcons (hcat fruit htype)) hcoll) hfull
    refine ⟨_, update_eat_victory hrun hsnake hx hy (onSnake_eq_false.mpr hself) hfood htype
      hnew hfull, ?_⟩
    simp [victory, hall]
  · intro s' htick hwon
    obtain ⟨first, rest, _, hcases⟩ := update_ok_cases hrun htick
    rcases hcases with rfl | ⟨_, _, _, hmove | ⟨_, fruit, htype, hwin | hspawn⟩⟩
    · simp [gameOver] at hwon
    · obtain ⟨_, rfl⟩ := hmove
      simp [hrun] at hwon
    · obtain ⟨_, hfull, rfl⟩ := hwin
      exact eq_catalogIcons_of_card
        (Finset.insert_subset (icon_mem_catalogIcons (hcat fruit htype)) hcoll) hfull
    · obtain ⟨_, food, _, rfl⟩ := hspawn
      simp [hrun] at hwon

/-- Scenario B: with every icon but the lemon collected, eating the lemon wins
on that tick, and the snake has grown to four segments. -/
theorem update_victory_witness :
    (∃ s', update (fun _ => 0) 1 scenarioB = .ok s' ∧ s'.gameState = .VICTORY ∧
      s'.timeLeft = 5 ∧ s'.collectedFruitsRef = catalogIcons ∧
      s'.collectedFruits = catalogIcons ∧
      s'.snake = { x := 10 + 1, y := 10 + 0 } :: scenarioB.snake) :=
  (update_victory (fun _ => 0) 1 scenarioB rfl (by decide) (by decide)).1
    { x := 10, y := 10 } [{ x := 9, y := 10 }, { x := 8, y := 10 }]
    { icon := "🍋", cn := "柠檬", es := "Limón" } rfl (by decide) (by decide) (by decide)
    (by decide) rfl (by decide) (by decide)


/-- C8: in mode `RUNNING`, on the keyboard and on the buttons alike: while the
current velocity is `(1,0)` or `(-1,0)` the commands left and right change
nothing and the commands up and down set the pending velocity to `(0,-1)` and
`(0,1)`; while it is `(0,1)` or `(0,-1)` the commands up and down change nothing
and the commands left and right set the pending velocity to `(-1,0)` and
`(1,0)`; so right followed by left with current and pending velocity `(1,0)`
leaves the pending velocity at `(1,0)`. -/
theorem direction_no_reversal (rnd : Nat → Nat) (fuel : Nat) (s : State)
    (hrun : s.gameState = .RUNNING) :
    ((s.velocity = { x := 1, y := 0 } ∨ s.velocity = { x := -1, y := 0 }) →
      (∀ r ∈ [handleKeyDown rnd fuel .ArrowLeft s, handleKeyDown rnd fuel .ArrowRight s,
          handleBtnPress rnd fuel .LEFT s, handleBtnPress rnd fuel .RIGHT s], r = .ok s) ∧
      (∀ r ∈ [handleKeyDown rnd fuel .ArrowUp s, handleBtnPress rnd fuel .UP s],
        r = .ok { s with nextVelocity := { x := 0, y := -1 } }) ∧
      (∀ r ∈ [handleKeyDown rnd fuel .ArrowDown s, handleBtnPress rnd fuel .DOWN s],
        r = .ok { s with nextVelocity := { x := 0, y := 1 } })) ∧
    ((s.velocity = { x := 0, y := 1 } ∨ s.velocity = { x := 0, y := -1 }) →
      (∀ r ∈ [handleKeyDown rnd fuel .ArrowUp s, handleKeyDown rnd fuel .ArrowDown s,
          handleBtnPress rnd fuel .UP s, handleBtnPress rnd fuel .DOWN s], r = .ok s) ∧
      (∀ r ∈ [handleKeyDown rnd fuel .ArrowLeft s, handleBtnPress rnd fuel .LEFT s],
        r = .ok { s with nextVelocity := { x := -1, y := 0 } }) ∧
      (∀ r ∈ [handleKeyDown rnd fuel .ArrowRight s, handleBtnPress rnd fuel .RIGHT s],
        r = .ok { s with nextVelocity := { x := 1, y := 0 } })) ∧
    (s.velocity = { x := 1, y := 0 } → s.nextVelocity = { x := 1, y := 0 } →
      (∃ s1 s2, handleKeyDown rnd fuel .ArrowRight s = .ok s1 ∧
        handleKeyDown rnd fuel .ArrowLeft s1 = .ok s2 ∧ s2.nextVelocity = { x := 1, y := 0 }) ∧
      (∃ s1 s2, handleBtnPress rnd fuel .RIGHT s = .ok s1 ∧
        handleBtnPress rnd fuel .LEFT s1 = .ok s2 ∧ s2.nextVelocity = { x := 1, y := 0 })) := by
  refine ⟨?_, ?_, ?_⟩
  · rintro (hv | hv) <;> simp [handleKeyDown, handleBtnPress, hrun, hv]
  · rintro (hv | hv) <;> simp [handleKeyDown, handleBtnPress, hrun, hv]
  · intro hv hnext
    refine ⟨⟨s, s, ?_, ?_, hnext⟩, ⟨s, s, ?_, ?_, hnext⟩⟩ <;>
      simp [handleKeyDown, handleBtnPress, hrun, hv]

/-- Right after `startGame`: left and right are ignored, up sets the pending
velocity to `(0,-1)`, and right followed by left leaves it at `(1,0)`. -/
theorem direction_no_reversal_witness :
    handleKeyDown (fun _ => 0) 1 .ArrowLeft startedState = .ok startedState ∧
    handleBtnPress (fun _ => 0) 1 .UP startedState =
      .ok { startedState with nextVelocity := { x := 0, y := -1 } } ∧
    (∃ s1 s2, handleKeyDown (fun _ => 0) 1 .ArrowRight startedState = .ok s1 ∧
      handleKeyDown (fun _ => 0) 1 .ArrowLeft s1 = .ok s2 ∧
      s2.nextVelocity = { x := 1, y := 0 }) :=
  ⟨((direction_no_reversal (fun _ => 0) 1 startedState rfl).1 (Or.inl rfl)).1 _
      (List.mem_cons_self _ _),
    ((direction_no_reversal (fun _ => 0) 1 startedState rfl).1 (Or.inl rfl)).2.1 _
      (List.mem_cons_of_mem _ (List.mem_cons_self _ _)),
    ((direction_no_reversal (fun _ => 0) 1 startedState rfl).2.2 rfl rfl).1⟩

/-- C9: a tick, a command other than confirm and a countdown step, applied in
any state, leave a collection set that includes the one before, so its size
does not decrease; `startGame` leaves it empty; and a command, confirm
included, that does not keep the collection set is a call of `startGame`. -/
theorem collection_monotone (rnd : Nat → Nat) (fuel : Nat) (s s' : State) :
    (update rnd fuel s = .ok s' →
      s.collectedFruitsRef ⊆ s'.collectedFruitsRef ∧
      s.collectedFruitsRef.card ≤ s'.collectedFruitsRef.card ∧
      (s.collectedFruits = s.collectedFruitsRef → s.collectedFruits ⊆ s'.collectedFruits)) ∧
    (∀ key, key ≠ .Enter → key ≠ .Space → handleKeyDown rnd fuel key s = .ok s' →
      s'.collectedFruitsRef = s.collectedFruitsRef ∧ s'.collectedFruits = s.collectedFruits) ∧
    (∀ b, b ≠ .START → handleBtnPress rnd fuel b s = .ok s' →
      s'.collectedFruitsRef = s.collectedFruitsRef ∧ s'.collectedFruits = s.collectedFruits) ∧
    ((timerEffect s).collectedFruitsRef = s.collectedFruitsRef ∧
      (timerEffect s).collectedFruits = s.collectedFruits) ∧
    (startGame rnd fuel s = .ok s' → s'.collectedFruitsRef = ∅ ∧ s'.collectedFruits = ∅) ∧
    (∀ key, handleKeyDown rnd fuel key s = .ok s' →
      (s'.collectedFruitsRef = s.collectedFruitsRef ∧ s'.collectedFruits = s.collectedFruits) ∨
      ((∃ s0, startGame rnd fuel s0 = .ok s') ∧ s'.collectedFruitsRef = ∅ ∧
        s'.collectedFruits = ∅)) ∧
    (∀ b, handleBtnPress rnd fuel b s = .ok s' →
      (s'.collectedFruitsRef = s.collectedFruitsRef ∧ s'.collectedFruits = s.collectedFruits) ∨
      ((∃ s0, startGame rnd fuel s0 = .ok s') ∧ s'.collectedFruitsRef = ∅ ∧
        s'.collectedFruits = ∅)) := by
  have hstart : ∀ s0, startGame rnd fuel s0 = .ok s' →
      s'.collectedFruitsRef = ∅ ∧ s'.collectedFruits = ∅ := by
    intro s0 h
    obtain ⟨food, _, rfl⟩ := startGame_ok h
    exact ⟨rfl, rfl⟩
  refine ⟨fun htick => ?_, fun key h1 h2 h => ?_, fun b h1 h => ?_, ?_, hstart s,
    fun key h => ?_, fun b h => ?_⟩
  · have hsub : s.collectedFruitsRef ⊆ s'.collectedFruitsRef ∧
        (s.collectedFruits = s.collectedFruitsRef → s.collectedFruits ⊆ s'.collectedFruits) := by
      by_cases hrun : s.gameState = .RUNNING
      · obtain ⟨first, rest, _, hcases⟩ := update_ok_cases hrun htick
        rcases hcases with rfl | ⟨_, _, _, hmove | ⟨_, fruit, _, hwin | hspawn⟩⟩
        · exact ⟨Finset.Subset.refl _, fun _ => Finset.Subset.refl _⟩
        · obtain ⟨_, rfl⟩ := hmove
          exact ⟨Finset.Subset.refl _, fun _ => Finset.Subset.refl _⟩
        · obtain ⟨_, _, rfl⟩ := hwin
          exact ⟨Finset.subset_insert _ _, fun hm => hm ▸ Finset.subset_insert _ _⟩
        · obtain ⟨_, food, _, rfl⟩ := hspawn
          refine ⟨Finset.subset_insert _ _, fun hm => ?_⟩
          by_cases hin : fruit.icon ∈ s.collectedFruitsRef
          · simp [hin]
          · simp only [hin, if_false]
            exact hm ▸ Finset.subset_insert _ _
      · rw [update_not_running hrun] at htick
        cases htick
        exact ⟨Finset.Subset.refl _, fun _ => Finset.Subset.refl _⟩
    exact ⟨hsub.1, Finset.card_le_card hsub.1, hsub.2⟩
  · rcases handleKeyDown_frame h with ⟨hk, _⟩ | ⟨_, _, _, _, h5, h6, _⟩
    · rcases hk with hk | hk
      · exact absurd hk h1
      · exact absurd hk h2
    · exact ⟨h5, h6⟩
  · rcases handleBtnPress_frame h with ⟨hb, _⟩ | ⟨_, _, _, _, h5, h6, _⟩
    · exact absurd hb h1
    · exact ⟨h5, h6⟩
  · obtain ⟨_, _, _, _, _, h5, h6, _⟩ := timerEffect_frame s
    exact ⟨h5, h6⟩
  · rcases handleKeyDown_frame h with ⟨_, _, s0, h0⟩ | ⟨_, _, _, _, h5, h6, _⟩
    · exact Or.inr ⟨⟨s0, h0⟩, hstart s0 h0⟩
    · exact Or.inl ⟨h5, h6⟩
  · rcases handleBtnPress_frame h with ⟨_, _, s0, h0⟩ | ⟨_, _, _, _, h5, h6, _⟩
    · exact Or.inr ⟨⟨s0, h0⟩, hstart s0 h0⟩
    · exact Or.inl ⟨h5, h6⟩


/-- Eating the apple in scenario A turns the empty collection set into the set
of the apple icon, of size one. -/
theorem collection_monotone_witness :
    scenarioA.collectedFruitsRef ⊆ ateState.collectedFruitsRef ∧
      scenarioA.collectedFruitsRef.card ≤ ateState.collectedFruitsRef.card ∧
      (scenarioA.collectedFruits = scenarioA.collectedFruitsRef →
        scenarioA.collectedFruits ⊆ ateState.collectedFruits) :=
  (collection_monotone (fun _ => 0) 1 scenarioA ateState).1 rfl

/-- C10: whatever the state before, the start command in mode `START` and the
confirm command in mode `GALLERY` (the keys Enter and Space and the button
START) yield mode `RUNNING`, the snake `(10,10), (9,10), (8,10)`, current and
pending velocity `(1,0)`, score 0, an empty collection set and the food that
`spawnFood` returns on that snake, which lies on none of its three cells and
depends on the answers of `Math.random` alone.  The command returns as soon as
a round of the spawner draws a cell off the snake. -/
theorem start_resets_game (rnd : Nat → Nat) (fuel : Nat)
    (hdraw : ∃ i, i < fuel ∧ freeDraw rnd startSnake 0 i) :
    ∃ food, spawnFood rnd startSnake fuel 0 = .ok food ∧
      (∀ seg ∈ startSnake, ¬ (seg.x = food.x ∧ seg.y = food.y)) ∧
      ∀ s : State, s.gameState = .START ∨ s.gameState = .GALLERY →
        ∀ r ∈ [handleKeyDown rnd fuel .Enter s, handleKeyDown rnd fuel .Space s,
            handleBtnPress rnd fuel .START s],
          ∃ s', r = .ok s' ∧ s'.gameState = .RUNNING ∧
            s'.snake = [{ x := 10, y := 10 }, { x := 9, y := 10 }, { x := 8, y := 10 }] ∧
            s'.velocity = { x := 1, y := 0 } ∧ s'.nextVelocity = { x := 1, y := 0 } ∧
            s'.score = 0 ∧ s'.collectedFruitsRef = ∅ ∧ s'.collectedFruits = ∅ ∧
            s'.food = food := by
  obtain ⟨food, hsp⟩ := spawnFood_returns hdraw
  refine ⟨food, hsp, onSnake_eq_false.mp (spawnFood_ok hsp).2.2.2.2.1, ?_⟩
  have hstart : ∀ s0 : State, ∃ s', startGame rnd fuel s0 = .ok s' ∧ s'.gameState = .RUNNING ∧
      s'.snake = [{ x := 10, y := 10 }, { x := 9, y := 10 }, { x := 8, y := 10 }] ∧
      s'.velocity = { x := 1, y := 0 } ∧ s'.nextVelocity = { x := 1, y := 0 } ∧
      s'.score = 0 ∧ s'.collectedFruitsRef = ∅ ∧ s'.collectedFruits = ∅ ∧
      s'.food = food := by
    intro s0
    rw [startGame_eq, hsp]
    exact ⟨_, rfl, rfl, rfl, rfl, rfl, rfl, rfl, rfl, rfl⟩
  intro s hmode r hr
  simp only [List.mem_cons, List.mem_singleton, List.not_mem_nil, or_false] at hr
  rcases hmode with hmode | hmode <;> rcases hr with rfl | rfl | rfl <;>
    simp only [handleKeyDown, handleBtnPress, hmode] <;> simp <;>
    first | exact hstart s | exact hstart (resetGalleryTimer s)

/-- From the freshly mounted component (key Enter) and from a gallery with a
full collection set and score 120 (button START), with draws `10, 10, 3, 4, 5`,
the game starts afresh with the food `(3, 4)`. -/
theorem start_resets_game_witness :
    (∃ s', handleKeyDown demoDraws 2 .Enter initialState = .ok s' ∧ s'.gameState = .RUNNING ∧
      s'.snake = [{ x := 10, y := 10 }, { x := 9, y := 10 }, { x := 8, y := 10 }] ∧
      s'.velocity = { x := 1, y := 0 } ∧ s'.nextVelocity = { x := 1, y := 0 } ∧
      s'.score = 0 ∧ s'.collectedFruitsRef = ∅ ∧ s'.collectedFruits = ∅ ∧
      s'.food = demoFood) ∧
    (∃ s', handleBtnPress demoDraws 2 .START galleryState = .ok s' ∧ s'.gameState = .RUNNING ∧
      s'.snake = [{ x := 10, y := 10 }, { x := 9, y := 10 }, { x := 8, y := 10 }] ∧
      s'.velocity = { x := 1, y := 0 } ∧ s'.nextVelocity = { x := 1, y := 0 } ∧
      s'.score = 0 ∧ s'.collectedFruitsRef = ∅ ∧ s'.collectedFruits = ∅ ∧
      s'.food = demoFood) := by
  obtain ⟨food, hsp, _, hall⟩ := start_resets_game demoDraws 2 ⟨1, by decide, by decide⟩
  have hfood : food = demoFood := Except.ok.inj (hsp.symm.trans rfl)
  subst hfood
  exact ⟨hall initialState (Or.inl rfl) _ (List.mem_cons_self _ _),
    hall galleryState (Or.inr rfl) _
      (List.mem_cons_of_mem _ (List.mem_cons_of_mem _ (List.mem_cons_self _ _)))⟩


/-! ## The countdown -/

theorem timerEffect_count {t : State}
    (hmode : t.gameState = .GALLERY ∨ t.gameState = .GAMEOVER ∨ t.gameState = .VICTORY)
    (h : 1 < t.timeLeft) :
    (timerEffect t).gameState = t.gameState ∧ (timerEffect t).timeLeft = t.timeLeft - 1 ∧
      (timerEffect t).galleryIndex = t.galleryIndex := by
  have h1 : ¬ t.timeLeft ≤ 1 := by omega
  unfold timerEffect
  rcases hmode with hm | hm | hm <;> simp [hm, h1]

theorem timerEffect_ended_expire {t : State}
    (hmode : t.gameState = .GAMEOVER ∨ t.gameState = .VICTORY) (h : t.timeLeft ≤ 1) :
    (timerEffect t).gameState = .GALLERY ∧ (timerEffect t).timeLeft = 30 ∧
      (timerEffect t).galleryIndex = 0 := by
  unfold timerEffect
  rcases hmode with hm | hm <;> simp [hm, h]

theorem timerEffect_gallery_expire {t : State}
    (hmode : t.gameState = .GALLERY) (h : t.timeLeft ≤ 1) :
    (timerEffect t).gameState = .START ∧ (timerEffect t).timeLeft = 30 := by
  unfold timerEffect
  simp [hmode, h]

/-- While more than `n` seconds remain, `n` firings of the timer count `n` down
and keep the mode. -/
theorem timerEffect_iterate {s : State}
    (hmode : s.gameState = .GALLERY ∨ s.gameState = .GAMEOVER ∨ s.gameState = .VICTORY)
    (n : Nat) (h : (n : Int) < s.timeLeft) :
    (timerEffect^[n] s).gameState = s.gameState ∧
      (timerEffect^[n] s).timeLeft = s.timeLeft - n ∧
      (timerEffect^[n] s).galleryIndex = s.galleryIndex := by
  induction n with
  | zero => simp
  | succ m ih =>
    obtain ⟨h1, h2, h3⟩ := ih (by push_cast at h; omega)
    rw [Function.iterate_succ_apply']
    obtain ⟨g1, g2, g3⟩ := @timerEffect_count (timerEffect^[m] s) (by rw [h1]; exact hmode)
      (by rw [h2]; push_cast at h; omega)
    refine ⟨g1.trans h1, ?_, g3.trans h3⟩
    rw [g2, h2]; push_cast; ring

/-- A tick that leaves mode `RUNNING` ends in `GAMEOVER` or `VICTORY` with the
countdown at 5. -/
theorem update_ended {rnd : Nat → Nat} {fuel : Nat} {s s' : State}
    (hrun : s.gameState = .RUNNING) (h : update rnd fuel s = .ok s')
    (hend : s'.gameState ≠ .RUNNING) :
    (s'.gameState = .GAMEOVER ∨ s'.gameState = .VICTORY) ∧ s'.timeLeft = 5 := by
  obtain ⟨first, rest, _, hcases⟩ := update_ok_cases hrun h
  rcases hcases with rfl | ⟨_, _, _, hmove | ⟨_, fruit, _, hwin | hspawn⟩⟩
  · exact ⟨Or.inl rfl, rfl⟩
  · obtain ⟨_, rfl⟩ := hmove
    exact absurd hrun hend
  · obtain ⟨_, _, rfl⟩ := hwin
    exact ⟨Or.inr rfl, rfl⟩
  · obtain ⟨_, food, _, rfl⟩ := hspawn
    exact absurd hrun hend

/-! ## The claims on the end screen and the gallery -/

/-- C12: the state that a losing or winning tick produces has mode `GAMEOVER`
or `VICTORY` and countdown 5; from it, with timer firings only, the mode is
unchanged and the countdown is 4, 3, 2, 1 after the first four firings, and
after the fifth the mode is `GALLERY`, the countdown 30 and the gallery cursor
0. -/
theorem ended_countdown (rnd : Nat → Nat) (fuel : Nat) (s0 s : State)
    (hrun : s0.gameState = .RUNNING) (htick : update rnd fuel s0 = .ok s)
    (hend : s.gameState = .GAMEOVER ∨ s.gameState = .VICTORY) :
    s.timeLeft = 5 ∧
    (∀ n : Nat, 1 ≤ n → n ≤ 4 →
      (timerEffect^[n] s).gameState = s.gameState ∧ (timerEffect^[n] s).timeLeft = 5 - n) ∧
    (timerEffect^[5] s).gameState = .GALLERY ∧ (timerEffect^[5] s).timeLeft = 30 ∧
    (timerEffect^[5] s).galleryIndex = 0 := by
  have hnot : s.gameState ≠ .RUNNING := by
    rcases hend with h | h <;> simp [h]
  have hfive : s.timeLeft = 5 := (update_ended hrun htick hnot).2
  have hmode : s.gameState = .GALLERY ∨ s.gameState = .GAMEOVER ∨ s.gameState = .VICTORY :=
    Or.inr hend
  refine ⟨hfive, fun n _ hn => ?_, ?_⟩
  · obtain ⟨h1, h2, _⟩ := timerEffect_iterate hmode n (by rw [hfive]; exact_mod_cast (by omega))
    exact ⟨h1, by rw [h2, hfive]⟩
  · obtain ⟨h1, h2, _⟩ := timerEffect_iterate hmode 4 (by rw [hfive]; decide)
    rw [Function.iterate_succ_apply']
    exact timerEffect_ended_expire (by rw [h1]; exact hend) (by rw [h2, hfive]; decide)

/-- The tick that runs `wallState` into the wall gives `lostState`; five
firings later the gallery opens on the first fruit with 30 seconds. -/
theorem ended_countdown_witness :
    lostState.timeLeft = 5 ∧
    (∀ n : Nat, 1 ≤ n → n ≤ 4 →
      (timerEffect^[n] lostState).gameState = lostState.gameState ∧
      (timerEffect^[n] lostState).timeLeft = 5 - n) ∧
    (timerEffect^[5] lostState).gameState = .GALLERY ∧
    (timerEffect^[5] lostState).timeLeft = 30 ∧
    (timerEffect^[5] lostState).galleryIndex = 0 :=
  ended_countdown (fun _ => 0) 1 wallState lostState rfl rfl (Or.inl rfl)

/-- C14: in mode `GALLERY` with countdown `c`, `1 ≤ c ≤ 30`, timer firings
alone keep the mode `GALLERY` for the first `c - 1` firings, the countdown
going down by 1 each time, and the `c`-th firing sets the mode to `START`; no
firing in mode `GALLERY` leads to a mode other than `GALLERY` or `START`. -/
theorem gallery_countdown (s : State) (hmode : s.gameState = .GALLERY) :
    (∀ c : Nat, 1 ≤ c → c ≤ 30 → s.timeLeft = c →
      (∀ n : Nat, n < c →
        (timerEffect^[n] s).gameState = .GALLERY ∧ (timerEffect^[n] s).timeLeft = c - n) ∧
      (timerEffect^[c] s).gameState = .START) ∧
    ((timerEffect s).gameState = .GALLERY ∨ (timerEffect s).gameState = .START) := by
  constructor
  · intro c hc1 _ hleft
    have hall : ∀ n : Nat, n < c →
        (timerEffect^[n] s).gameState = .GALLERY ∧ (timerEffect^[n] s).timeLeft = c - n := by
      intro n hn
      obtain ⟨h1, h2, _⟩ := timerEffect_iterate (Or.inl hmode) n
        (by rw [hleft]; exact_mod_cast hn)
      exact ⟨h1.trans hmode, by rw [h2, hleft]⟩
    refine ⟨hall, ?_⟩
    obtain ⟨m, rfl⟩ : ∃ m, c = m + 1 := ⟨c - 1, by omega⟩
    obtain ⟨h1, h2⟩ := hall m (by omega)
    rw [Function.iterate_succ_apply']
    exact (timerEffect_gallery_expire h1 (by rw [h2]; push_cast; omega)).1
  · by_cases h : s.timeLeft ≤ 1
    · exact Or.inr (timerEffect_gallery_expire hmode h).1
    · exact Or.inl ((timerEffect_count (Or.inl hmode) (by omega)).1.trans hmode)

/-- The gallery `galleryState` has 12 seconds left: it stays for 11 firings and
the twelfth returns to the start screen. -/
theorem gallery_countdown_witness :
    (∀ n : Nat, n < 12 →
      (timerEffect^[n] galleryState).gameState = .GALLERY ∧
      (timerEffect^[n] galleryState).timeLeft = (12 : Nat) - n) ∧
    (timerEffect^[12] galleryState).gameState = .START :=
  (gallery_countdown galleryState rfl).1 12 (by decide) (by decide) rfl

theorem gallery_next {rnd : Nat → Nat} {fuel : Nat} {s : State}
    (hmode : s.gameState = .GALLERY) :
    handleKeyDown rnd fuel .ArrowRight s =
        .ok { s with timeLeft := 30, galleryIndex := (s.galleryIndex + 1).tmod 12 } ∧
      handleBtnPress rnd fuel .RIGHT s =
        .ok { s with timeLeft := 30, galleryIndex := (s.galleryIndex + 1).tmod 12 } := by
  simp [handleKeyDown, handleBtnPress, hmode, resetGalleryTimer, FRUITS_length]

theorem gallery_prev {rnd : Nat → Nat} {fuel : Nat} {s : State}
    (hmode : s.gameState = .GALLERY) :
    handleKeyDown rnd fuel .ArrowLeft s =
        .ok { s with timeLeft := 30, galleryIndex := (s.galleryIndex - 1 + 12).tmod 12 } ∧
      handleBtnPress rnd fuel .LEFT s =
        .ok { s with timeLeft := 30, galleryIndex := (s.galleryIndex - 1 + 12).tmod 12 } := by
  simp [handleKeyDown, handleBtnPress, hmode, resetGalleryTimer, FRUITS_length]

/-- C13: in mode `GALLERY` with cursor `i`, `0 ≤ i < 12`, on the keyboard and on
the buttons alike, Next sets the cursor to `(i + 1) mod 12` and Prev sets it to
`(i - 1 + 12) mod 12`; each resets the countdown to 30 and keeps the mode; the
new cursor is in `0 .. 11`, Next at 11 gives 0 and Prev at 0 gives 11; Prev
after Next and Next after Prev give the cursor `i` back. -/
theorem gallery_cursor (rnd : Nat → Nat) (fuel : Nat) (s : State)
    (hmode : s.gameState = .GALLERY) (hlo : 0 ≤ s.galleryIndex) (hhi : s.galleryIndex < 12) :
    (∀ r ∈ [handleKeyDown rnd fuel .ArrowRight s, handleBtnPress rnd fuel .RIGHT s],
      ∃ s', r = .ok s' ∧ s'.galleryIndex = (s.galleryIndex + 1) % 12 ∧ s'.timeLeft = 30 ∧
        s'.gameState = .GALLERY ∧ (0 ≤ s'.galleryIndex ∧ s'.galleryIndex < 12) ∧
        (s.galleryIndex = 11 → s'.galleryIndex = 0) ∧
        ∀ r2 ∈ [handleKeyDown rnd fuel .ArrowLeft s', handleBtnPress rnd fuel .LEFT s'],
          ∃ s'', r2 = .ok s'' ∧ s''.galleryIndex = s.galleryIndex) ∧
    (∀ r ∈ [handleKeyDown rnd fuel .ArrowLeft s, handleBtnPress rnd fuel .LEFT s],
      ∃ s', r = .ok s' ∧ s'.galleryIndex = (s.galleryIndex - 1 + 12) % 12 ∧ s'.timeLeft = 30 ∧
        s'.gameState = .GALLERY ∧ (0 ≤ s'.galleryIndex ∧ s'.galleryIndex < 12) ∧
        (s.galleryIndex = 0 → s'.galleryIndex = 11) ∧
        ∀ r2 ∈ [handleKeyDown rnd fuel .ArrowRight s', handleBtnPress rnd fuel .RIGHT s'],
          ∃ s'', r2 = .ok s'' ∧ s''.galleryIndex = s.galleryIndex) := by
  have hnext : (s.galleryIndex + 1).tmod 12 = (s.galleryIndex + 1) % 12 :=
    Int.tmod_eq_emod (by omega) (by decide)
  have hprev : (s.galleryIndex - 1 + 12).tmod 12 = (s.galleryIndex - 1 + 12) % 12 :=
    Int.tmod_eq_emod (by omega) (by decide)
  have hback : ((s.galleryIndex + 1) % 12 - 1 + 12).tmod 12 = s.galleryIndex := by
    rw [Int.tmod_eq_emod (by omega) (by decide)]; omega
  have hforth : ((s.galleryIndex - 1 + 12) % 12 + 1).tmod 12 = s.galleryIndex := by
    rw [Int.tmod_eq_emod (by omega) (by decide)]; omega
  constructor
  · intro r hr
    have hr' : r = .ok { s with timeLeft := 30, galleryIndex := (s.galleryIndex + 1) % 12 } := by
      simp only [List.mem_cons, List.mem_singleton, List.not_mem_nil, or_false] at hr
      rcases hr with rfl | rfl
      · rw [(gallery_next hmode).1, hnext]
      · rw [(gallery_next hmode).2, hnext]
    refine ⟨_, hr', rfl, rfl, hmode, by dsimp only; omega, by dsimp only; omega, ?_⟩
    intro r2 hr2
    simp only [List.mem_cons, List.mem_singleton, List.not_mem_nil, or_false] at hr2
    rcases hr2 with rfl | rfl
    · rw [(gallery_prev (by exact hmode)).1]
      exact ⟨_, rfl, hback⟩
    · rw [(gallery_prev (by exact hmode)).2]
      exact ⟨_, rfl, hback⟩
  · intro r hr
    have hr' : r = .ok { s with
        timeLeft := 30, galleryIndex := (s.galleryIndex - 1 + 12) % 12 } := by
      simp only [List.mem_cons, List.mem_singleton, List.not_mem_nil, or_false] at hr
      rcases hr with rfl | rfl
      · rw [(gallery_prev hmode).1, hprev]
      · rw [(gallery_prev hmode).2, hprev]
    refine ⟨_, hr', rfl, rfl, hmode, by dsimp only; omega, by dsimp only; omega, ?_⟩
    intro r2 hr2
    simp only [List.mem_cons, List.mem_singleton, List.not_mem_nil, or_false] at hr2
    rcases hr2 with rfl | rfl
    · rw [(gallery_next (by exact hmode)).1]
      exact ⟨_, rfl, hforth⟩
    · rw [(gallery_next (by exact hmode)).2]
      exact ⟨_, rfl, hforth⟩

/-- Scenario D: in the gallery at cursor 5 the key ArrowRight moves the cursor
to 6 and resets the countdown to 30. -/
theorem gallery_cursor_witness :
    ∃ s', handleKeyDown (fun _ => 0) 1 .ArrowRight galleryAtFive = .ok s' ∧
      s'.galleryIndex = 6 ∧ s'.timeLeft = 30 ∧ s'.gameState = .GALLERY := by
  obtain ⟨s', h1, h2, h3, h4, _⟩ :=
    (gallery_cursor (fun _ => 0) 1 galleryAtFive rfl (by decide) (by decide)).1 _
      (List.mem_cons_self _ _)
  exact ⟨s', h1, h2, h3, h4⟩

/-- C11, as the code has it: in mode `GAMEOVER` or `VICTORY`, whatever the
countdown, the keys Enter and Space set the mode to `GALLERY`, the countdown to
30 and the gallery cursor to 0, while the on-screen START button is a call of
`startGame`, which leads to mode `RUNNING` and never to `GALLERY`. -/
theorem ended_confirm (rnd : Nat → Nat) (fuel : Nat) (s : State)
    (hend : s.gameState = .GAMEOVER ∨ s.gameState = .VICTORY) :
    (∀ r ∈ [handleKeyDown rnd fuel .Enter s, handleKeyDown rnd fuel .Space s],
      ∃ s', r = .ok s' ∧ s'.gameState = .GALLERY ∧ s'.timeLeft = 30 ∧ s'.galleryIndex = 0) ∧
    handleBtnPress rnd fuel .START s = startGame rnd fuel s ∧
    (∀ s', handleBtnPress rnd fuel .START s = .ok s' → s'.gameState = .RUNNING) := by
  have hbtn : handleBtnPress rnd fuel .START s = startGame rnd fuel s := by
    rcases hend with h | h <;> simp [handleBtnPress, h]
  refine ⟨?_, hbtn, fun s' h => ?_⟩
  · intro r hr
    simp only [List.mem_cons, List.mem_singleton, List.not_mem_nil, or_false] at hr
    rcases hend with h | h <;> rcases hr with rfl | rfl <;>
      simp [handleKeyDown, h, resetGalleryTimer]
  · rw [hbtn] at h
    obtain ⟨food, _, rfl⟩ := startGame_ok h
    rfl

/-- On the lost game `lostState` the key Enter opens the gallery, and the START
button starts a new game. -/
theorem ended_confirm_witness :
    (∃ s', handleKeyDown (fun _ => 0) 1 .Enter lostState = .ok s' ∧ s'.gameState = .GALLERY ∧
      s'.timeLeft = 30 ∧ s'.galleryIndex = 0) ∧
    handleBtnPress (fun _ => 0) 1 .START lostState = startGame (fun _ => 0) 1 lostState :=
  ⟨(ended_confirm (fun _ => 0) 1 lostState (Or.inl rfl)).1 _ (List.mem_cons_self _ _),
    (ended_confirm (fun _ => 0) 1 lostState (Or.inl rfl)).2.1⟩

/-- C11 fails for the button: on the lost game `lostState`, countdown 5, the
START button yields mode `RUNNING` with a fresh snake, not `GALLERY`. -/
theorem button_restart_counterexample :
    lostState.gameState = .GAMEOVER ∧
    (∃ s', handleBtnPress (fun _ => 0) 1 .START lostState = .ok s' ∧
      s'.gameState = .RUNNING ∧ s'.snake = startSnake) ∧
    ¬ ∃ s', handleBtnPress (fun _ => 0) 1 .START lostState = .ok s' ∧
      s'.gameState = .GALLERY ∧ s'.timeLeft = 30 ∧ s'.galleryIndex = 0 := by
  have h : handleBtnPress (fun _ => 0) 1 .START lostState =
      .ok { startedState with timeLeft := 5 } := rfl
  refine ⟨rfl, ⟨_, h, rfl, rfl⟩, ?_⟩
  rintro ⟨s', hs', hmode, _⟩
  rw [h] at hs'
  cases hs'
  exact absurd hmode (by decide)

/-- C15, as the code has it: in mode `START`, `GAMEOVER` or `VICTORY` every
direction command, from the keyboard or the buttons, returns the state
unchanged; in mode `GALLERY` the commands up and down change nothing but the
countdown, which they reset to 30. -/
theorem direction_ignored (rnd : Nat → Nat) (fuel : Nat) (s : State) :
    (s.gameState = .START ∨ s.gameState = .GAMEOVER ∨ s.gameState = .VICTORY →
      ∀ r ∈ [handleKeyDown rnd fuel .ArrowUp s, handleKeyDown rnd fuel .ArrowDown s,
          handleKeyDown rnd fuel .ArrowLeft s, handleKeyDown rnd fuel .ArrowRight s,
          handleBtnPress rnd fuel .UP s, handleBtnPress rnd fuel .DOWN s,
          handleBtnPress rnd fuel .LEFT s, handleBtnPress rnd fuel .RIGHT s], r = .ok s) ∧
    (s.gameState = .GALLERY →
      ∀ r ∈ [handleKeyDown rnd fuel .ArrowUp s, handleKeyDown rnd fuel .ArrowDown s,
          handleBtnPress rnd fuel .UP s, handleBtnPress rnd fuel .DOWN s],
        r = .ok { s with timeLeft := 30 }) := by
  constructor
  · rintro (h | h | h) <;> simp [handleKeyDown, handleBtnPress, h]
  · intro h
    simp [handleKeyDown, handleBtnPress, h, resetGalleryTimer]

/-- On the lost game the key ArrowLeft changes nothing; in the gallery with 12
seconds left the UP button resets the countdown to 30. -/
theorem direction_ignored_witness :
    handleKeyDown (fun _ => 0) 1 .ArrowLeft lostState = .ok lostState ∧
    handleBtnPress (fun _ => 0) 1 .UP galleryState = .ok { galleryState with timeLeft := 30 } :=
  ⟨(direction_ignored (fun _ => 0) 1 lostState).1 (Or.inr (Or.inl rfl)) _
      (List.mem_cons_of_mem _ (List.mem_cons_of_mem _ (List.mem_cons_self _ _))),
    (direction_ignored (fun _ => 0) 1 galleryState).2 rfl _
      (List.mem_cons_of_mem _ (List.mem_cons_of_mem _ (List.mem_cons_self _ _)))⟩

/-- C15 fails in the gallery: with 12 seconds left, the key ArrowUp and the UP
button return a state whose countdown is 30, not the state before. -/
theorem gallery_reset_counterexample :
    galleryState.gameState = .GALLERY ∧ galleryState.timeLeft = 12 ∧
    (∃ s', handleKeyDown (fun _ => 0) 1 .ArrowUp galleryState = .ok s' ∧ s'.timeLeft = 30 ∧
      s' ≠ galleryState) ∧
    (∃ s', handleBtnPress (fun _ => 0) 1 .UP galleryState = .ok s' ∧ s'.timeLeft = 30 ∧
      s' ≠ galleryState) := by
  have hne : ({ galleryState with timeLeft := 30 } : State) ≠ galleryState := by
    intro h
    have := congrArg State.timeLeft h
    exact absurd this (by decide)
  exact ⟨rfl, rfl, ⟨_, rfl, rfl, hne⟩, ⟨_, rfl, rfl, hne⟩⟩

/-! ## The food spawner on a full board -/

theorem fullBoard_length : fullBoard.length = 440 := by
  simp [fullBoard, List.length_flatMap, TILE_COUNT_X_eq, TILE_COUNT_Y_eq, Function.comp_def]

theorem fullBoard_covers (x y : Nat) (hx : x < 20) (hy : y < 22) :
    onSnake fullBoard x y = true := by
  rw [onSnake_eq_true]
  refine ⟨{ x := (x : Int), y := (y : Int) }, ?_, rfl, rfl⟩
  unfold fullBoard
  rw [List.mem_flatMap]
  refine ⟨x, List.mem_range.mpr (show x < TILE_COUNT_X from hx), ?_⟩
  rw [List.mem_map]
  by_cases hpar : x % 2 = 0
  · exact ⟨y, List.mem_range.mpr (show y < TILE_COUNT_Y from hy), by simp [hpar]⟩
  · refine ⟨21 - y, List.mem_range.mpr (show 21 - y < TILE_COUNT_Y by rw [TILE_COUNT_Y_eq]; omega), ?_⟩
    have h21 : (21 : Int) - ((21 - y : Nat) : Int) = y := by omega
    simp [hpar, h21]

/-- On a snake that covers the grid every round of `spawnFood` redraws: after
any number of rounds the loop has not been left. -/
theorem spawnFood_outOfFuel_of_full {snake : List Point}
    (hfull : ∀ x y : Nat, x < 20 → y < 22 → onSnake snake x y = true)
    (rnd : Nat → Nat) (fuel k : Nat) : spawnFood rnd snake fuel k = .error .outOfFuel := by
  induction fuel generalizing k with
  | zero => rfl
  | succ n ih =>
    rw [spawnFood]
    have hx := randomBelow_lt rnd k TILE_COUNT_X (by decide)
    have hy := randomBelow_lt rnd (k + 1) TILE_COUNT_Y (by decide)
    have hon : onSnake snake (randomBelow rnd k TILE_COUNT_X : Nat)
        (randomBelow rnd (k + 1) TILE_COUNT_Y : Nat) = true := hfull _ _ hx hy
    simp only [hon, Bool.not_true, Bool.false_eq_true, if_false]
    exact ih (k + 2)

/-- The function `spawnFood` has no error exit: whatever the snake, it returns
a food or is still in its loop. -/
theorem spawnFood_ne_typeError (rnd : Nat → Nat) (snake : List Point) (fuel k : Nat) :
    spawnFood rnd snake fuel k ≠ .error .typeError := by
  induction fuel generalizing k with
  | zero => simp [spawnFood]
  | succ n ih =>
    rw [spawnFood]
    split_ifs
    · simp
    · exact ih (k + 2)

/-- C16, as the code has it: on a snake that occupies every one of the
20 x 22 grid cells `spawnFood` reports no error and does not stop; after any
number of rounds, with any answers of `Math.random`, it is still redrawing. -/
theorem spawnFood_full_board (snake : List Point)
    (hfull : ∀ x y : Nat, x < 20 → y < 22 → onSnake snake x y = true)
    (rnd : Nat → Nat) (fuel k : Nat) :
    spawnFood rnd snake fuel k = .error .outOfFuel ∧
      (∀ food, spawnFood rnd snake fuel k ≠ .ok food) ∧
      spawnFood rnd snake fuel k ≠ .error .typeError := by
  have h := spawnFood_outOfFuel_of_full hfull rnd fuel k
  refine ⟨h, fun food => ?_, ?_⟩ <;> simp [h]

/-- On the snake `fullBoard` of 440 segments, 1000 rounds with every draw `0`
end nowhere. -/
theorem spawnFood_full_board_witness :
    fullBoard.length = 440 ∧
    spawnFood (fun _ => 0) fullBoard 1000 0 = .error .outOfFuel ∧
      (∀ food, spawnFood (fun _ => 0) fullBoard 1000 0 ≠ .ok food) ∧
      spawnFood (fun _ => 0) fullBoard 1000 0 ≠ .error .typeError :=
  ⟨fullBoard_length, spawnFood_full_board fullBoard fullBoard_covers (fun _ => 0) 1000 0⟩

/-- C16 fails on the code: for the snake `fullBoard`, which covers the grid,
no number of rounds is a bound after which `spawnFood` has stopped with an
error. -/
theorem spawnFood_fail_fast_counterexample :
    fullBoard.length = 440 ∧
    (∀ x y : Nat, x < 20 → y < 22 → onSnake fullBoard x y = true) ∧
    ¬ ∃ bound : Nat, ∀ rnd : Nat → Nat, ∃ fault : Fault,
      fault ≠ .outOfFuel ∧ spawnFood rnd fullBoard bound 0 = .error fault := by
  refine ⟨fullBoard_length, fullBoard_covers, ?_⟩
  rintro ⟨bound, h⟩
  obtain ⟨fault, hne, hres⟩ := h (fun _ => 0)
  rw [spawnFood_outOfFuel_of_full fullBoard_covers] at hres
  cases hres
  exact hne rfl

/-! ## Velocities, length and score in every reachable state -/

theorem startGame_steady {rnd : Nat → Nat} {fuel : Nat} {s s' : State}
    (h : startGame rnd fuel s = .ok s') : Steady s' := by
  obtain ⟨food, _, rfl⟩ := startGame_ok h
  refine ⟨Or.inl rfl, Or.inl rfl, Or.inl rfl, by simp [startSnake], by simp [startSnake],
    by simp [startSnake], fun _ => ?_⟩
  exact ⟨_, _, _, rfl, by simp, by simp⟩

theorem UnitStep.horizontal {v : Point} (h : UnitStep v) (hy : v.y = 0) :
    v = { x := 1, y := 0 } ∨ v = { x := -1, y := 0 } := by
  rcases h with h | h | h | h
  · exact Or.inl h
  · exact Or.inr h
  · rw [h] at hy; exact absurd hy (by decide)
  · rw [h] at hy; exact absurd hy (by decide)

theorem UnitStep.vertical {v : Point} (h : UnitStep v) (hx : v.x = 0) :
    v = { x := 0, y := 1 } ∨ v = { x := 0, y := -1 } := by
  rcases h with h | h | h | h
  · rw [h] at hx; exact absurd hx (by decide)
  · rw [h] at hx; exact absurd hx (by decide)
  · exact Or.inl h
  · exact Or.inr h

/-- A key press is a call of `startGame`, or it keeps the snake, the current
velocity, the score and the collection set, does not enter mode `RUNNING`, and
either keeps the pending velocity or sets it to a unit step across an axis on
which the current velocity is zero. -/
theorem handleKeyDown_velocity {rnd : Nat → Nat} {fuel : Nat} {key : Key} {s s' : State}
    (h : handleKeyDown rnd fuel key s = .ok s') :
    (∃ s0, startGame rnd fuel s0 = .ok s') ∨
    (s'.snake = s.snake ∧ s'.velocity = s.velocity ∧ s'.score = s.score ∧
      s'.collectedFruitsRef = s.collectedFruitsRef ∧
      (s'.gameState = .RUNNING → s.gameState = .RUNNING) ∧
      (s'.nextVelocity = s.nextVelocity ∨
        (s.velocity.y = 0 ∧
          (s'.nextVelocity = { x := 0, y := -1 } ∨ s'.nextVelocity = { x := 0, y := 1 })) ∨
        (s.velocity.x = 0 ∧
          (s'.nextVelocity = { x := -1, y := 0 } ∨ s'.nextVelocity = { x := 1, y := 0 })))) := by
  unfold handleKeyDown at h
  split_ifs at h with h1 h2 h3 h4 h5 h6 h7
  all_goals first
    | (cases h; right; simp_all [resetGalleryTimer])
    | (left; exact ⟨_, h⟩)
    | (cases key <;> simp at h <;> subst h <;> right <;> simp_all)

theorem handleBtnPress_velocity {rnd : Nat → Nat} {fuel : Nat} {b : Button} {s s' : State}
    (h : handleBtnPress rnd fuel b s = .ok s') :
    (∃ s0, startGame rnd fuel s0 = .ok s') ∨
    (s'.snake = s.snake ∧ s'.velocity = s.velocity ∧ s'.score = s.score ∧
      s'.collectedFruitsRef = s.collectedFruitsRef ∧
      (s'.gameState = .RUNNING → s.gameState = .RUNNING) ∧
      (s'.nextVelocity = s.nextVelocity ∨
        (s.velocity.y = 0 ∧
          (s'.nextVelocity = { x := 0, y := -1 } ∨ s'.nextVelocity = { x := 0, y := 1 })) ∨
        (s.velocity.x = 0 ∧
          (s'.nextVelocity = { x := -1, y := 0 } ∨ s'.nextVelocity = { x := 1, y := 0 })))) := by
  unfold handleBtnPress at h
  split_ifs at h with h1 h2 h3 h4 h5 h6 h7 h8
  all_goals first
    | (cases h; right; simp_all [resetGalleryTimer])
    | (left; exact ⟨_, h⟩)
    | (cases b <;> simp at h <;> subst h <;> right <;> simp_all)

theorem timerEffect_not_running (s : State) :
    (timerEffect s).gameState = .RUNNING → s.gameState = .RUNNING := by
  unfold timerEffect
  split_ifs <;> simp

theorem update_steady {rnd : Nat → Nat} {fuel : Nat} {s s' : State}
    (hst : Steady s) (h : update rnd fuel s = .ok s') : Steady s' := by
  by_cases hrun : s.gameState = .RUNNING
  · obtain ⟨first, rest, hsnake, hcases⟩ := update_ok_cases hrun h
    have hlen := hst.length
    have hscore := hst.score
    have hcard := hst.collected
    rcases hcases with rfl | ⟨_, _, _, hmove | ⟨_, fruit, _, hwin | hspawn⟩⟩
    · exact ⟨hst.nextVelocity, hst.nextVelocity, Or.inl rfl, hlen, hscore, hcard,
        fun hmode => absurd hmode (by simp [gameOver])⟩
    · obtain ⟨_, rfl⟩ := hmove
      obtain ⟨second, rest2, rfl⟩ : ∃ second rest2, rest = second :: rest2 := by
        cases rest with
        | nil => rw [hsnake] at hlen; simp at hlen
        | cons a r => exact ⟨a, r, rfl⟩
      have hdrop : (({ x := first.x + s.nextVelocity.x, y := first.y + s.nextVelocity.y } :
          Point) :: s.snake).dropLast =
          { x := first.x + s.nextVelocity.x, y := first.y + s.nextVelocity.y } :: first ::
            (second :: rest2).dropLast := by
        rw [hsnake]; rfl
      have hlen' : (({ x := first.x + s.nextVelocity.x, y := first.y + s.nextVelocity.y } :
          Point) :: s.snake).dropLast.length = s.snake.length := by
        simp
      refine ⟨hst.nextVelocity, hst.nextVelocity, Or.inl rfl, ?_, ?_, ?_, fun _ => ?_⟩
      · show 3 ≤ List.length _
        rw [hlen']; exact hlen
      · show s.score = 10 * ((List.length _ : Nat) - 3)
        rw [hlen']; exact hscore
      · show s.collectedFruitsRef.card + 3 ≤ List.length _
        rw [hlen']; exact hcard
      · exact ⟨_, _, _, hdrop, by simp, by simp⟩
    · obtain ⟨hnew, _, rfl⟩ := hwin
      refine ⟨hst.nextVelocity, hst.nextVelocity, Or.inl rfl, ?_, ?_, ?_,
        fun hmode => absurd hmode (by simp [victory])⟩
      · show 3 ≤ (_ :: s.snake).length
        simp; omega
      · show s.score + 10 = 10 * (((_ :: s.snake).length : Nat) - 3)
        rw [hscore]; simp; ring
      · show (insert fruit.icon s.collectedFruitsRef).card + 3 ≤ (_ :: s.snake).length
        rw [Finset.card_insert_of_not_mem hnew]; simp; omega
    · obtain ⟨_, food, _, rfl⟩ := hspawn
      refine ⟨hst.nextVelocity, hst.nextVelocity, Or.inl rfl, ?_, ?_, ?_, fun _ => ?_⟩
      · show 3 ≤ (_ :: s.snake).length
        simp; omega
      · show s.score + 10 = 10 * (((_ :: s.snake).length : Nat) - 3)
        rw [hscore]; simp; ring
      · show (insert fruit.icon s.collectedFruitsRef).card + 3 ≤ (_ :: s.snake).length
        have := Finset.card_insert_le fruit.icon s.collectedFruitsRef
        simp; omega
      · exact ⟨_, first, rest, by rw [hsnake], by simp, by simp⟩
  · rw [update_not_running hrun] at h
    cases h
    exact hst

/-- A step that keeps the snake, the current velocity, the score and the
collection set, does not enter mode `RUNNING` and turns the pending velocity
only across the current one, keeps the state steady. -/
theorem steady_of_quiet_step {s s' : State} (hst : Steady s)
    (hsnake : s'.snake = s.snake) (hvel : s'.velocity = s.velocity)
    (hscore : s'.score = s.score) (hcoll : s'.collectedFruitsRef = s.collectedFruitsRef)
    (hmode : s'.gameState = .RUNNING → s.gameState = .RUNNING)
    (hnext : s'.nextVelocity = s.nextVelocity ∨
      (s.velocity.y = 0 ∧
        (s'.nextVelocity = { x := 0, y := -1 } ∨ s'.nextVelocity = { x := 0, y := 1 })) ∨
      (s.velocity.x = 0 ∧
        (s'.nextVelocity = { x := -1, y := 0 } ∨ s'.nextVelocity = { x := 1, y := 0 }))) :
    Steady s' := by
  have hunit : UnitStep s'.nextVelocity ∧ (s'.nextVelocity = s'.velocity ∨
      s'.nextVelocity.x * s'.velocity.x + s'.nextVelocity.y * s'.velocity.y = 0) := by
    rw [hvel]
    rcases hnext with h | ⟨h0, h | h⟩ | ⟨h0, h | h⟩
    · rw [h]; exact ⟨hst.nextVelocity, hst.turn⟩
    · rw [h]; exact ⟨Or.inr (Or.inr (Or.inr rfl)), Or.inr (by simp [h0])⟩
    · rw [h]; exact ⟨Or.inr (Or.inr (Or.inl rfl)), Or.inr (by simp [h0])⟩
    · rw [h]; exact ⟨Or.inr (Or.inl rfl), Or.inr (by simp [h0])⟩
    · rw [h]; exact ⟨Or.inl rfl, Or.inr (by simp [h0])⟩
  refine ⟨hvel ▸ hst.velocity, hunit.1, hunit.2, hsnake ▸ hst.length, ?_, ?_, fun hr => ?_⟩
  · rw [hscore, hsnake]; exact hst.score
  · rw [hcoll, hsnake]; exact hst.collected
  · rw [hsnake, hvel]; exact hst.neck (hmode hr)

theorem Reachable.steady {s : State} (h : Reachable s) : Steady s := by
  induction h with
  | start rnd fuel s0 s hs => exact startGame_steady hs
  | tick rnd fuel s s' _ hs ih => exact update_steady ih hs
  | key rnd fuel k s s' _ hs ih =>
    rcases handleKeyDown_velocity hs with ⟨s0, h0⟩ | ⟨h1, h2, h3, h4, h5, h6⟩
    · exact startGame_steady h0
    · exact steady_of_quiet_step ih h1 h2 h3 h4 h5 h6
  | btn rnd fuel b s s' _ hs ih =>
    rcases handleBtnPress_velocity hs with ⟨s0, h0⟩ | ⟨h1, h2, h3, h4, h5, h6⟩
    · exact startGame_steady h0
    · exact steady_of_quiet_step ih h1 h2 h3 h4 h5 h6
  | timer s _ ih =>
    obtain ⟨h1, _, h3, h4, h5, h6, _⟩ := timerEffect_frame s
    exact steady_of_quiet_step ih h1 h4 h3 h6 (timerEffect_not_running s) (Or.inl h5)

/-- A tick on a state with a non-empty snake and a food that carries a fruit
throws no `TypeError`. -/
theorem update_ne_typeError {rnd : Nat → Nat} {fuel : Nat} {s : State}
    (hsnake : s.snake ≠ []) (hfood : ∃ fruit, s.food.type = some fruit) :
    update rnd fuel s ≠ .error .typeError := by
  by_cases hrun : s.gameState = .RUNNING
  · obtain ⟨first, rest, hs⟩ : ∃ first rest, s.snake = first :: rest := by
      cases hs : s.snake with
      | nil => exact absurd hs hsnake
      | cons a r => exact ⟨a, r, rfl⟩
    obtain ⟨fruit, htype⟩ := hfood
    by_cases hwall : first.x + s.nextVelocity.x < 0 ∨ 20 ≤ first.x + s.nextVelocity.x ∨
        first.y + s.nextVelocity.y < 0 ∨ 22 ≤ first.y + s.nextVelocity.y
    · rw [update_wall hrun hs hwall]; simp
    have hx : 0 ≤ first.x + s.nextVelocity.x ∧ first.x + s.nextVelocity.x < 20 := by omega
    have hy : 0 ≤ first.y + s.nextVelocity.y ∧ first.y + s.nextVelocity.y < 22 := by omega
    cases hself : onSnake s.snake (first.x + s.nextVelocity.x) (first.y + s.nextVelocity.y) with
    | true => rw [update_self hrun hs hself]; simp
    | false =>
      by_cases hfd : first.x + s.nextVelocity.x = s.food.x ∧
          first.y + s.nextVelocity.y = s.food.y
      · by_cases hwin : fruit.icon ∉ s.collectedFruitsRef ∧
            (insert fruit.icon s.collectedFruitsRef).card = FRUITS.length
        · rw [update_eat_victory hrun hs hx hy hself hfd htype hwin.1 hwin.2]; simp
        · rw [update_eat_spawn hrun hs hx hy hself hfd htype hwin]
          have hne := spawnFood_ne_typeError rnd
            ({ x := first.x + s.nextVelocity.x, y := first.y + s.nextVelocity.y } :: s.snake)
            fuel 0
          cases hsp : spawnFood rnd
              ({ x := first.x + s.nextVelocity.x, y := first.y + s.nextVelocity.y } :: s.snake)
              fuel 0 with
          | ok food => simp [Except.map]
          | error e =>
            rw [hsp] at hne
            simpa [Except.map] using hne
      · rw [update_move hrun hs hx hy hself hfd]; simp
  · rw [update_not_running hrun]; simp

/-! ## The claims on the invariants of a running game -/

/-- C17: in every reachable state with mode `RUNNING`, the current and the
pending velocity are each one of `(1,0)`, `(-1,0)`, `(0,1)`, `(0,-1)`; the
pending velocity is the current one or orthogonal to it, never its opposite;
and the cell head plus pending velocity is not the cell of the second segment
of the snake. -/
theorem velocity_never_reverses (s : State) (hreach : Reachable s)
    (hrun : s.gameState = .RUNNING) :
    UnitStep s.velocity ∧ UnitStep s.nextVelocity ∧
    (s.nextVelocity = s.velocity ∨
      s.nextVelocity.x * s.velocity.x + s.nextVelocity.y * s.velocity.y = 0) ∧
    ¬ (s.nextVelocity.x = -s.velocity.x ∧ s.nextVelocity.y = -s.velocity.y) ∧
    ∃ first second rest, s.snake = first :: second :: rest ∧
      ¬ (first.x + s.nextVelocity.x = second.x ∧ first.y + s.nextVelocity.y = second.y) := by
  have hst := hreach.steady
  have hopp : ¬ (s.nextVelocity.x = -s.velocity.x ∧ s.nextVelocity.y = -s.velocity.y) := by
    rintro ⟨hx, hy⟩
    have hv := hst.velocity
    rcases hst.turn with ht | ht
    · rw [ht] at hx hy
      rcases hv with h | h | h | h <;> rw [h] at hx hy <;> simp at hx hy
    · rw [hx, hy] at ht
      rcases hv with h | h | h | h <;> rw [h] at ht <;> simp at ht
  obtain ⟨first, second, rest, hsnake, hnx, hny⟩ := hst.neck hrun
  refine ⟨hst.velocity, hst.nextVelocity, hst.turn, hopp, first, second, rest, hsnake, ?_⟩
  rintro ⟨hx, hy⟩
  exact hopp ⟨by omega, by omega⟩

/-- Right after `startGame`: both velocities are `(1,0)` and the head `(10,10)`
plus `(1,0)` is not the second segment `(9,10)`. -/
theorem velocity_never_reverses_witness :
    UnitStep startedState.velocity ∧ UnitStep startedState.nextVelocity ∧
    (startedState.nextVelocity = startedState.velocity ∨
      startedState.nextVelocity.x * startedState.velocity.x +
        startedState.nextVelocity.y * startedState.velocity.y = 0) ∧
    ¬ (startedState.nextVelocity.x = -startedState.velocity.x ∧
      startedState.nextVelocity.y = -startedState.velocity.y) ∧
    ∃ first second rest, startedState.snake = first :: second :: rest ∧
      ¬ (first.x + startedState.nextVelocity.x = second.x ∧
        first.y + startedState.nextVelocity.y = second.y) :=
  velocity_never_reverses startedState
    (Reachable.start (fun _ => 0) 1 initialState startedState rfl) rfl

/-- C18: in every reachable state with mode `RUNNING`, `GAMEOVER` or `VICTORY`
the score is 10 times the snake length minus 3, the snake has at least 3
segments, so that it has a head and a tick throws no `TypeError`, and the
collection set has at most snake length minus 3 icons. -/
theorem score_tracks_length (s : State) (hreach : Reachable s)
    (_hmode : s.gameState = .RUNNING ∨ s.gameState = .GAMEOVER ∨ s.gameState = .VICTORY) :
    s.score = 10 * ((s.snake.length : Int) - 3) ∧ 3 ≤ s.snake.length ∧
    (∃ first rest, s.snake = first :: rest) ∧
    (∀ rnd fuel, update rnd fuel s ≠ .error .typeError) ∧
    s.collectedFruitsRef.card ≤ s.snake.length - 3 := by
  have hst := hreach.steady
  have hwf := hreach.wellFormed
  have hlen := hst.length
  have hcons : ∃ first rest, s.snake = first :: rest := by
    cases hs : s.snake with
    | nil => rw [hs] at hlen; simp at hlen
    | cons a r => exact ⟨a, r, rfl⟩
  have hne : s.snake ≠ [] := by
    obtain ⟨a, r, hs⟩ := hcons
    simp [hs]
  obtain ⟨fruit, _, htype⟩ := hwf.foodType
  have hcard := hst.collected
  exact ⟨hst.score, hlen, hcons, fun rnd fuel => update_ne_typeError hne ⟨fruit, htype⟩,
    by omega⟩

/-- After `startGame` with the apple at `(11,10)` and one tick, the snake has 4
segments, the score is 10 and the collection set holds one icon. -/
theorem score_tracks_length_witness :
    ateState.score = 10 * ((ateState.snake.length : Int) - 3) ∧ 3 ≤ ateState.snake.length ∧
    (∃ first rest, ateState.snake = first :: rest) ∧
    (∀ rnd fuel, update rnd fuel ateState ≠ .error .typeError) ∧
    ateState.collectedFruitsRef.card ≤ ateState.snake.length - 3 :=
  score_tracks_length ateState
    (Reachable.tick (fun _ => 0) 1 scenarioA ateState
      (Reachable.start appleDraws 1 initialState scenarioA rfl) rfl)
    (Or.inl rfl)


/-! ## Eating the last free cell -/

theorem fullBoard_nodup : fullBoard.Nodup := by
  unfold fullBoard
  rw [List.nodup_flatMap]
  refine ⟨fun x _ => ?_, ?_⟩
  · refine List.Nodup.map_on ?_ (List.nodup_range _)
    intro y1 _ y2 _ h
    have hy := congrArg Point.y h
    simp only [Int.ofNat_eq_coe] at hy
    split_ifs at hy <;> omega
  · refine List.Pairwise.imp_of_mem ?_ (List.nodup_range TILE_COUNT_X)
    intro a b _ _ hab p hp hq
    obtain ⟨y1, _, rfl⟩ := List.mem_map.mp hp
    obtain ⟨y2, _, h2⟩ := List.mem_map.mp hq
    have hx := congrArg Point.x h2
    simp only [Int.ofNat_eq_coe] at hx
    exact hab (by omega)

theorem fullBoard_eq_cons : fullBoard = { x := 0, y := 0 } :: fullBoard.tail :=
  List.eq_cons_of_mem_head? (show ({ x := 0, y := 0 } : Point) ∈ fullBoard.head? from rfl)

theorem fullBoard_tail_eq_cons : fullBoard.tail = { x := 0, y := 1 } :: fullBoard.tail.tail :=
  List.eq_cons_of_mem_head? (show ({ x := 0, y := 1 } : Point) ∈ fullBoard.tail.head? from rfl)

theorem fullBoard_tail_free : onSnake fullBoard.tail 0 0 = false := by
  have hnd := fullBoard_nodup
  rw [fullBoard_eq_cons, List.nodup_cons] at hnd
  cases h : onSnake fullBoard.tail 0 0 with
  | false => rfl
  | true => exact absurd ((onSnake_iff_mem (p := { x := 0, y := 0 })).mp h) hnd.1

/-- In `crowdedState` the tick eats the apple on the last free cell, the grown
snake is `fullBoard`, and the spawner never leaves its loop. -/
theorem update_crowdedState (rnd : Nat → Nat) (fuel : Nat) :
    update rnd fuel crowdedState = .error .outOfFuel := by
  have hsnake : crowdedState.snake = { x := 0, y := 1 } :: fullBoard.tail.tail :=
    fullBoard_tail_eq_cons
  have hnew : (({ x := (0 : Int) + 0, y := (1 : Int) + -1 } : Point) :: crowdedState.snake) =
      fullBoard := fullBoard_eq_cons.symm
  have hgo : ¬ (("🍎" : String) ∉ crowdedState.collectedFruitsRef ∧
      (insert "🍎" crowdedState.collectedFruitsRef).card = FRUITS.length) :=
    fun h => h.1 (by decide)
  have hupd := @update_eat_spawn rnd fuel crowdedState { x := 0, y := 1 } fullBoard.tail.tail
    { icon := "🍎", cn := "苹果", es := "Manzana" } rfl hsnake (by decide) (by decide)
    fullBoard_tail_free ⟨rfl, rfl⟩ rfl hgo
  rw [hupd]
  have hsp : spawnFood rnd
      (({ x := (0 : Int) + 0, y := (1 : Int) + -1 } : Point) :: crowdedState.snake) fuel 0 =
      .error .outOfFuel := by
    rw [hnew]
    exact spawnFood_outOfFuel_of_full fullBoard_covers rnd fuel 0
  exact congrArg (Except.map _) hsp

/-- C5 fails on a crowded board: `crowdedState` is in mode `RUNNING`, its head
`(0,1)` plus the pending velocity `(0,-1)` is the cell `(0,0)`, which is in
bounds, on none of the 439 segments and on the food, and the collection set
with the apple added is not the catalog; yet no tick returns, whatever the
answers of `Math.random` and however many rounds the spawner is given. -/
theorem crowded_board_counterexample :
    crowdedState.gameState = .RUNNING ∧
    crowdedState.snake = { x := 0, y := 1 } :: fullBoard.tail.tail ∧
    crowdedState.snake.length = 439 ∧
    crowdedState.nextVelocity = { x := 0, y := -1 } ∧
    (∀ seg ∈ crowdedState.snake, ¬ (seg.x = 0 ∧ seg.y = 0)) ∧
    (crowdedState.food.x = 0 ∧ crowdedState.food.y = 0) ∧
    (∃ fruit ∈ FRUITS, crowdedState.food.type = some fruit ∧
      crowdedState.collectedFruitsRef ⊆ catalogIcons ∧
      insert fruit.icon crowdedState.collectedFruitsRef ≠ catalogIcons) ∧
    (∀ rnd fuel, update rnd fuel crowdedState = .error .outOfFuel) ∧
    ¬ ∃ rnd fuel s', update rnd fuel crowdedState = .ok s' := by
  refine ⟨rfl, fullBoard_tail_eq_cons, ?_, rfl, onSnake_eq_false.mp fullBoard_tail_free,
    ⟨rfl, rfl⟩, ⟨{ icon := "🍎", cn := "苹果", es := "Manzana" }, by decide, rfl, by decide,
      by decide⟩, update_crowdedState, ?_⟩
  · show fullBoard.tail.length = 439
    rw [List.length_tail, fullBoard_length]
  · rintro ⟨rnd, fuel, s', h⟩
    rw [update_crowdedState] at h
    cases h

end HolaSnake
